import Mathlib

/-!
Verification of the key-pair module of this repository
(`src/utils/key_pair.ts`): typed public keys, the Ed25519 key pair,
canonical string encoding, signing/verification dispatch, and the
authenticated-encryption envelope built on a box cipher.

Modelling conventions:
* JS strings are `List Char`; byte buffers (`Uint8Array`) are `List Nat`
  with each entry a byte value.
* Fallible JS code (`throw`) is `Except KpError`; the distinct error
  messages of the source are mapped to distinct `KpError` constructors.
* The external collaborators (the tweetnacl signature and box primitives
  and the ed2curve key conversions) are bundled in `SignPrims` / `BoxPrims`
  records; the repository code is embedded as functions over those bundles.
  The nondeterministic inputs (ephemeral box key pair, nonce) are explicit
  parameters, the single randomness seam of the design.
* `Uint8Array.prototype.set` / `slice` are modelled byte-exactly (`uset`,
  `uslice`).
-/

/-- JS `split(':')` on a list of characters: returns the (non-empty) list of
segments between colons, exactly as `String.prototype.split` does. -/
def splitColon : List Char → List (List Char)
  | [] => [[]]
  | c :: rest =>
    if c = ':' then [] :: splitColon rest
    else
      match splitColon rest with
      | [] => [[c]]
      | p :: ps => (c :: p) :: ps

/-- The base-58 alphabet (bitcoin variant) used by the byte codec. -/
def b58Alphabet : List Char :=
  "123456789ABCDEFGHJKLMNPQRSTUVWXYZabcdefghijkmnopqrstuvwxyz".toList

/-- Index of a character in the base-58 alphabet, `none` if absent. -/
def b58DigitAux (c : Char) : List Char → Option Nat
  | [] => none
  | a :: rest => if a = c then some 0 else (b58DigitAux c rest).map (· + 1)

def b58Digit (c : Char) : Option Nat := b58DigitAux c b58Alphabet

/-- Big-endian base-58 value of a digit string (accumulator form); fails on
the first character outside the alphabet. -/
def b58ValueAux (acc : Nat) : List Char → Option Nat
  | [] => some acc
  | c :: rest =>
    match b58Digit c with
    | none => none
    | some d => b58ValueAux (acc * 58 + d) rest

/-- Number of leading `'1'` digits (each stands for one leading zero byte). -/
def b58LeadingOnes : List Char → Nat
  | '1' :: rest => b58LeadingOnes rest + 1
  | _ => 0

/-- Big-endian byte expansion of a natural number (no leading zero bytes);
`fuel` bounds the recursion and is always supplied large enough. -/
def natToBytesAux : Nat → Nat → List Nat → List Nat
  | 0, _, acc => acc
  | fuel + 1, n, acc =>
    if n = 0 then acc else natToBytesAux fuel (n / 256) (n % 256 :: acc)

/-- Modelled from the spec: `base_decode` of `src/utils/serialize.ts`, which is
not under `src/`. Spec section 6 describes it as `decode(string) -> bytes` over a
base-58-family alphabet matching the section 8 examples, failing on malformed
input; this is standard bitcoin-alphabet base-58 decoding. -/
def base_decode (s : List Char) : Option (List Nat) :=
  match b58ValueAux 0 s with
  | none => none
  | some v => some (List.replicate (b58LeadingOnes s) 0 ++ natToBytesAux s.length v [])

/-- Little-endian-accumulator base-58 digit expansion of a natural number. -/
def natToB58Aux : Nat → Nat → List Char → List Char
  | 0, _, acc => acc
  | fuel + 1, n, acc =>
    if n = 0 then acc else natToB58Aux fuel (n / 58) (b58Alphabet.getD (n % 58) '1' :: acc)

/-- Big-endian value of a byte string (accumulator form). -/
def bytesValueAux (acc : Nat) : List Nat → Nat
  | [] => acc
  | b :: rest => bytesValueAux (acc * 256 + b) rest

/-- Number of leading zero bytes. -/
def leadingZeroBytes : List Nat → Nat
  | 0 :: rest => leadingZeroBytes rest + 1
  | _ => 0

/-- Modelled from the spec: `base_encode` of `src/utils/serialize.ts`, which is
not under `src/`. Spec section 6 describes it as `encode(bytes) -> string`;
this is standard bitcoin-alphabet base-58 encoding (two digits per input byte
always suffice, since 58^2 > 256). -/
def base_encode (bs : List Nat) : List Char :=
  List.replicate (leadingZeroBytes bs) '1' ++ natToB58Aux (2 * bs.length) (bytesValueAux 0 bs) []

/-- Model of `Uint8Array.prototype.set(src, off)`: overwrite `src.length`
bytes of `buf` starting at `off` (always called in-bounds by the source). -/
def uset (buf src : List Nat) (off : Nat) : List Nat :=
  buf.take off ++ src ++ buf.drop (off + src.length)

/-- Model of `Uint8Array.prototype.slice(a, b)` (clamping, like JS). -/
def uslice (buf : List Nat) (a b : Nat) : List Nat := (buf.take b).drop a

/-- Model of `Uint8Array.prototype.slice(a)` to the end of the buffer. -/
def usliceFrom (buf : List Nat) (a : Nat) : List Nat := buf.drop a

/-- The distinct error messages thrown by `key_pair.ts` (and, for
`invalidEncoding` / `badSecretKeySize`, by its collaborators at the points
the source calls them). -/
inductive KpError where
  | unknownKeyType
  | unknownCurve
  | invalidKeyFormat
  | invalidEncoding
  | badSecretKeySize
deriving DecidableEq, Repr

/-- `enum KeyType` of the source: the closed set of supported curves,
currently exactly ED25519. -/
inductive KeyType where
  | ED25519
deriving DecidableEq, Repr

/-- `key_type_to_str` of the source (the `default` branch is unreachable on
the closed enum, so the embedding is total). -/
def key_type_to_str : KeyType → List Char
  | .ED25519 => "ed25519".toList

/-- `str_to_key_type` of the source: case-insensitive tag lookup. -/
def str_to_key_type (s : List Char) : Except KpError KeyType :=
  if s.map Char.toLower = "ed25519".toList then .ok KeyType.ED25519
  else .error .unknownKeyType

/-- `class PublicKey`: key type plus raw key bytes. -/
structure PublicKey where
  keyType : KeyType
  data : List Nat
deriving DecidableEq, Repr

/-- `PublicKey.fromString` of the source: split on `':'`; one segment is a
legacy bare ED25519 key, two segments are `<curve>:<encoded>` (curve tag
resolved before the data segment is decoded, as in the source's property
evaluation order), more segments are a format error. -/
def PublicKey.fromString (encodedKey : List Char) : Except KpError PublicKey :=
  match splitColon encodedKey with
  | [p0] =>
    match base_decode p0 with
    | some bs => .ok ⟨KeyType.ED25519, bs⟩
    | none => .error .invalidEncoding
  | [p0, p1] =>
    match str_to_key_type p0 with
    | .ok t =>
      match base_decode p1 with
      | some bs => .ok ⟨t, bs⟩
      | none => .error .invalidEncoding
    | .error e => .error e
  | _ => .error .invalidKeyFormat

/-- `PublicKey.toString` of the source: `<tag>:<base-encoded data>`. -/
def PublicKey.toString (pk : PublicKey) : List Char :=
  key_type_to_str pk.keyType ++ ':' :: base_encode pk.data

/-- The record returned by `nacl.sign.keyPair.fromSecretKey`. -/
structure SignKeyPairRec where
  publicKey : List Nat
  secretKey : List Nat
deriving DecidableEq, Repr

/-- Bundle of the external Ed25519 signature primitives (tweetnacl), the
spec's excluded collaborator: key pair from a 64-byte secret key, detached
signing, detached verification. -/
structure SignPrims where
  keyPairFromSecretKey : List Nat → Option SignKeyPairRec
  detached : List Nat → List Nat → List Nat
  detachedVerify : List Nat → List Nat → List Nat → Bool

/-- `interface Signature` of the source. -/
structure Signature where
  signature : List Nat
  publicKey : PublicKey
deriving DecidableEq, Repr

/-- `PublicKey.verify` of the source: dispatch on the key type to the curve's
verification primitive (the `default` branch is unreachable on the closed
enum). -/
def PublicKey.verify (S : SignPrims) (pk : PublicKey) (message signature : List Nat) : Bool :=
  match pk.keyType with
  | .ED25519 => S.detachedVerify message signature pk.data

/-- `class KeyPairEd25519`: derived public key plus the secret key kept in
its original encoded string form. -/
structure KeyPairEd25519 where
  publicKey : PublicKey
  secretKey : List Char
deriving DecidableEq, Repr

/-- The `KeyPairEd25519` constructor: decode the secret, derive the key pair
through the signature primitive, store the derived public key and the
original encoded secret string verbatim. A decode failure or a wrong-sized
secret key surfaces as the corresponding thrown error. -/
def KeyPairEd25519.create (S : SignPrims) (secretKey : List Char) :
    Except KpError KeyPairEd25519 :=
  match base_decode secretKey with
  | none => .error .invalidEncoding
  | some skBytes =>
    match S.keyPairFromSecretKey skBytes with
    | none => .error .badSecretKeySize
    | some keyPair => .ok ⟨⟨KeyType.ED25519, keyPair.publicKey⟩, secretKey⟩

/-- `KeyPairEd25519.sign`: detached signature over the exact message bytes,
paired with the stored public key (the secret string is re-decoded on every
call, exactly as the source does). -/
def KeyPairEd25519.sign (S : SignPrims) (kp : KeyPairEd25519) (message : List Nat) :
    Except KpError Signature :=
  match base_decode kp.secretKey with
  | none => .error .invalidEncoding
  | some sk => .ok ⟨S.detached message sk, kp.publicKey⟩

/-- `KeyPairEd25519.verify`: delegate to the stored public key. -/
def KeyPairEd25519.verify (S : SignPrims) (kp : KeyPairEd25519)
    (message signature : List Nat) : Bool :=
  kp.publicKey.verify S message signature

/-- `KeyPairEd25519.toString`: always the canonical `ed25519:<secret>`. -/
def KeyPairEd25519.toString (kp : KeyPairEd25519) : List Char :=
  "ed25519:".toList ++ kp.secretKey

/-- `KeyPairEd25519.getPublicKey`. -/
def KeyPairEd25519.getPublicKey (kp : KeyPairEd25519) : PublicKey :=
  kp.publicKey

/-- `KeyPairEd25519.fromRandom`: a fresh primitive-generated secret key
(passed here as the explicit randomness seam), base-encoded and fed through
the normal constructor path. -/
def KeyPairEd25519.fromRandom (S : SignPrims) (freshSecretKey : List Nat) :
    Except KpError KeyPairEd25519 :=
  KeyPairEd25519.create S (base_encode freshSecretKey)

/-- `KeyPair.fromString` of the source: the same colon-splitting as
`PublicKey.fromString`, with an uppercase case-insensitive curve match; the
only concrete curve is Ed25519, so the embedding returns the concrete type. -/
def KeyPair.fromString (S : SignPrims) (encodedKey : List Char) :
    Except KpError KeyPairEd25519 :=
  match splitColon encodedKey with
  | [p0] => KeyPairEd25519.create S p0
  | [p0, p1] =>
    if p0.map Char.toUpper = "ED25519".toList then KeyPairEd25519.create S p1
    else .error .unknownCurve
  | _ => .error .invalidKeyFormat

/-- The record returned by `nacl.box.keyPair`. -/
structure BoxKeyPairRec where
  publicKey : List Nat
  secretKey : List Nat
deriving DecidableEq, Repr

/-- Bundle of the external box-cipher primitives (tweetnacl `nacl.box`) and
the ed2curve key conversions, the spec's excluded collaborators. The
ephemeral key pair generator takes the random seed explicitly (randomness
seam); `box m nonce pk sk` seals, `boxOpen c nonce pk sk` opens and returns
`none` on authentication failure. -/
structure BoxPrims where
  keyPair : Nat → BoxKeyPairRec
  box : List Nat → List Nat → List Nat → List Nat → List Nat
  boxOpen : List Nat → List Nat → List Nat → List Nat → Option (List Nat)
  convertPublicKey : List Nat → List Nat
  convertSecretKey : List Nat → List Nat

/-- `KeyPairEd25519.encryptMessage`: fresh ephemeral box key pair and fresh
24-byte nonce (both passed explicitly as the randomness seam), box the
message to the converted receiver key, then assemble the envelope with the
source's three `Uint8Array.set` writes into a zero buffer of the summed
length. -/
def KeyPairEd25519.encryptMessage (B : BoxPrims) (_kp : KeyPairEd25519)
    (message : List Nat) (receiverPublicKey : PublicKey)
    (ephemeralSeed : Nat) (nonce : List Nat) : List Nat :=
  let ephemeralKeyPair := B.keyPair ephemeralSeed
  let cipher := B.box message nonce
    (B.convertPublicKey receiverPublicKey.data) ephemeralKeyPair.secretKey
  let result := List.replicate
    (nonce.length + cipher.length + ephemeralKeyPair.publicKey.length) 0
  uset (uset (uset result ephemeralKeyPair.publicKey 0)
      nonce ephemeralKeyPair.publicKey.length)
    cipher (ephemeralKeyPair.publicKey.length + nonce.length)

/-- `KeyPairEd25519.decryptMessage`: convert the own secret key, slice the
envelope at the fixed offsets 32 and 56, and open the box. The box result
(`some` plaintext or `none` on authentication failure) is returned inside
`.ok`; the only thrown error is a secret-key decode failure, impossible for
a constructed key pair. -/
def KeyPairEd25519.decryptMessage (B : BoxPrims) (kp : KeyPairEd25519)
    (fullCipher : List Nat) : Except KpError (Option (List Nat)) :=
  match base_decode kp.secretKey with
  | none => .error .invalidEncoding
  | some skBytes =>
    let secretKey := B.convertSecretKey skBytes
    let senderPublicKey := uslice fullCipher 0 32
    let nonce := uslice fullCipher 32 56
    let cipher := usliceFrom fullCipher 56
    .ok (B.boxOpen cipher nonce senderPublicKey secretKey)

/-- Word mask 2^64. -/
def M64 : Nat := 18446744073709551616

/-- Word mask 2^32. -/
def M32 : Nat := 4294967296

def rotr64 (x n : Nat) : Nat := ((x >>> n) ||| (x <<< (64 - n))) % M64

def rotr32 (x n : Nat) : Nat := ((x >>> n) ||| (x <<< (32 - n))) % M32

def not64 (x : Nat) : Nat := x ^^^ (M64 - 1)

def not32 (x : Nat) : Nat := x ^^^ (M32 - 1)

/-- Fixed-width big-endian byte expansion. -/
def natToBeBytes : Nat → Nat → List Nat
  | 0, _ => []
  | k + 1, n => natToBeBytes k (n / 256) ++ [n % 256]

/-- Fixed-width little-endian byte expansion. -/
def natToLeBytes : Nat → Nat → List Nat
  | 0, _ => []
  | k + 1, n => n % 256 :: natToLeBytes k (n / 256)

/-- Big-endian byte-string value. -/
def beBytesToNat (bs : List Nat) : Nat := bytesValueAux 0 bs

/-- Little-endian byte-string value. -/
def leBytesToNat : List Nat → Nat
  | [] => 0
  | b :: rest => b + 256 * leBytesToNat rest

/-- Split a list into chunks of `n` (fuel-bounded, fuel = list length). -/
def chunksAux (n : Nat) : Nat → List Nat → List (List Nat)
  | 0, _ => []
  | _, [] => []
  | fuel + 1, l => l.take n :: chunksAux n fuel (l.drop n)

def sha512K : List Nat := [
  4794697086780616226, 8158064640168781261, 13096744586834688815, 16840607885511220156,
  4131703408338449720, 6480981068601479193, 10538285296894168987, 12329834152419229976,
  15566598209576043074, 1334009975649890238, 2608012711638119052, 6128411473006802146,
  8268148722764581231, 9286055187155687089, 11230858885718282805, 13951009754708518548,
  16472876342353939154, 17275323862435702243, 1135362057144423861, 2597628984639134821,
  3308224258029322869, 5365058923640841347, 6679025012923562964, 8573033837759648693,
  10970295158949994411, 12119686244451234320, 12683024718118986047, 13788192230050041572,
  14330467153632333762, 15395433587784984357, 489312712824947311, 1452737877330783856,
  2861767655752347644, 3322285676063803686, 5560940570517711597, 5996557281743188959,
  7280758554555802590, 8532644243296465576, 9350256976987008742, 10552545826968843579,
  11727347734174303076, 12113106623233404929, 14000437183269869457, 14369950271660146224,
  15101387698204529176, 15463397548674623760, 17586052441742319658, 1182934255886127544,
  1847814050463011016, 2177327727835720531, 2830643537854262169, 3796741975233480872,
  4115178125766777443, 5681478168544905931, 6601373596472566643, 7507060721942968483,
  8399075790359081724, 8693463985226723168, 9568029438360202098, 10144078919501101548,
  10430055236837252648, 11840083180663258601, 13761210420658862357, 14299343276471374635,
  14566680578165727644, 15097957966210449927, 16922976911328602910, 17689382322260857208,
  500013540394364858, 748580250866718886, 1242879168328830382, 1977374033974150939,
  2944078676154940804, 3659926193048069267, 4368137639120453308, 4836135668995329356,
  5532061633213252278, 6448918945643986474, 6902733635092675308, 7801388544844847127]

def sha512H0 : List Nat := [
  7640891576956012808, 13503953896175478587, 4354685564936845355, 11912009170470909681,
  5840696475078001361, 11170449401992604703, 2270897969802886507, 6620516959819538809]

def sha256K : List Nat := [
  1116352408, 1899447441, 3049323471, 3921009573, 961987163, 1508970993,
  2453635748, 2870763221, 3624381080, 310598401, 607225278, 1426881987,
  1925078388, 2162078206, 2614888103, 3248222580, 3835390401, 4022224774,
  264347078, 604807628, 770255983, 1249150122, 1555081692, 1996064986,
  2554220882, 2821834349, 2952996808, 3210313671, 3336571891, 3584528711,
  113926993, 338241895, 666307205, 773529912, 1294757372, 1396182291,
  1695183700, 1986661051, 2177026350, 2456956037, 2730485921, 2820302411,
  3259730800, 3345764771, 3516065817, 3600352804, 4094571909, 275423344,
  430227734, 506948616, 659060556, 883997877, 958139571, 1322822218,
  1537002063, 1747873779, 1955562222, 2024104815, 2227730452, 2361852424,
  2428436474, 2756734187, 3204031479, 3329325298]

def sha256H0 : List Nat := [
  1779033703, 3144134277, 1013904242, 2773480762,
  1359893119, 2600822924, 528734635, 1541459225]

/-- SHA-512 padding: `0x80`, zeros, 16-byte big-endian bit length. -/
def sha512Pad (msg : List Nat) : List Nat :=
  msg ++ 128 :: List.replicate ((128 - (msg.length + 17) % 128) % 128) 0
    ++ natToBeBytes 16 (8 * msg.length)

/-- SHA-512 message-schedule extension: append one word per fuel step. -/
def sha512Extend : Nat → List Nat → List Nat
  | 0, w => w
  | fuel + 1, w =>
    let t := w.length
    let w15 := w.getD (t - 15) 0
    let w2 := w.getD (t - 2) 0
    let s0 := rotr64 w15 1 ^^^ rotr64 w15 8 ^^^ (w15 >>> 7)
    let s1 := rotr64 w2 19 ^^^ rotr64 w2 61 ^^^ (w2 >>> 6)
    sha512Extend fuel (w ++ [(w.getD (t - 16) 0 + s0 + w.getD (t - 7) 0 + s1) % M64])

/-- One SHA-512 compression round on the 8-word state. -/
def sha512Round (wt kt : Nat) : List Nat → List Nat
  | [a, b, c, d, e, f, g, h] =>
    let S1 := rotr64 e 14 ^^^ rotr64 e 18 ^^^ rotr64 e 41
    let ch := (e &&& f) ^^^ (not64 e &&& g)
    let t1 := (h + S1 + ch + kt + wt) % M64
    let S0 := rotr64 a 28 ^^^ rotr64 a 34 ^^^ rotr64 a 39
    let mj := (a &&& b) ^^^ (a &&& c) ^^^ (b &&& c)
    let t2 := (S0 + mj) % M64
    [(t1 + t2) % M64, a, b, c, (d + t1) % M64, e, f, g]
  | s => s

def sha512Rounds : List Nat → List Nat → List Nat → List Nat
  | [], _, s => s
  | _ :: _, [], s => s
  | wt :: ws, kt :: ks, s => sha512Rounds ws ks (sha512Round wt kt s)

def sha512Block (h block : List Nat) : List Nat :=
  let w := sha512Extend 64 ((chunksAux 8 block.length block).map beBytesToNat)
  let s := sha512Rounds w sha512K h
  (h.zip s).map (fun p => (p.1 + p.2) % M64)

/-- SHA-512 over a byte list (FIPS 180-4). -/
def sha512 (msg : List Nat) : List Nat :=
  let padded := sha512Pad msg
  ((chunksAux 128 padded.length padded).foldl sha512Block sha512H0).foldr
    (fun x acc => natToBeBytes 8 x ++ acc) []

def sha256Pad (msg : List Nat) : List Nat :=
  msg ++ 128 :: List.replicate ((64 - (msg.length + 9) % 64) % 64) 0
    ++ natToBeBytes 8 (8 * msg.length)

def sha256Extend : Nat → List Nat → List Nat
  | 0, w => w
  | fuel + 1, w =>
    let t := w.length
    let w15 := w.getD (t - 15) 0
    let w2 := w.getD (t - 2) 0
    let s0 := rotr32 w15 7 ^^^ rotr32 w15 18 ^^^ (w15 >>> 3)
    let s1 := rotr32 w2 17 ^^^ rotr32 w2 19 ^^^ (w2 >>> 10)
    sha256Extend fuel (w ++ [(w.getD (t - 16) 0 + s0 + w.getD (t - 7) 0 + s1) % M32])

def sha256Round (wt kt : Nat) : List Nat → List Nat
  | [a, b, c, d, e, f, g, h] =>
    let S1 := rotr32 e 6 ^^^ rotr32 e 11 ^^^ rotr32 e 25
    let ch := (e &&& f) ^^^ (not32 e &&& g)
    let t1 := (h + S1 + ch + kt + wt) % M32
    let S0 := rotr32 a 2 ^^^ rotr32 a 13 ^^^ rotr32 a 22
    let mj := (a &&& b) ^^^ (a &&& c) ^^^ (b &&& c)
    let t2 := (S0 + mj) % M32
    [(t1 + t2) % M32, a, b, c, (d + t1) % M32, e, f, g]
  | s => s

def sha256Rounds : List Nat → List Nat → List Nat → List Nat
  | [], _, s => s
  | _ :: _, [], s => s
  | wt :: ws, kt :: ks, s => sha256Rounds ws ks (sha256Round wt kt s)

def sha256Block (h block : List Nat) : List Nat :=
  let w := sha256Extend 48 ((chunksAux 4 block.length block).map beBytesToNat)
  let s := sha256Rounds w sha256K h
  (h.zip s).map (fun p => (p.1 + p.2) % M32)

/-- SHA-256 over a byte list (FIPS 180-4). -/
def sha256 (msg : List Nat) : List Nat :=
  let padded := sha256Pad msg
  ((chunksAux 64 padded.length padded).foldl sha256Block sha256H0).foldr
    (fun x acc => natToBeBytes 4 x ++ acc) []

/-- The Curve25519 field prime 2^255 - 19. -/
def edP : Nat := 57896044618658097711785492504343953926634992332820282019728792003956564819949

/-- The Ed25519 group order 2^252 + 27742317777372353535851937790883648493. -/
def edL : Nat := 7237005577332262213973186563042994240857116359379907606001950938285454250989

/-- The twisted-Edwards curve constant d. -/
def edD : Nat := 37095705934669439343138083508754565189542113879843219016388785533085940283555

/-- 2·d mod p. -/
def edD2 : Nat := 16295367250680780974490674513165176452449235426866156013048779062215315747161

/-- A square root of -1 mod p. -/
def edI : Nat := 19681161376707505956807079304988542015446066515923890162744021073123829784752

/-- 2^255 (the compressed-point sign-bit position). -/
def edSignBit : Nat := 57896044618658097711785492504343953926634992332820282019728792003956564819968

/-- Extended-coordinate points on the Ed25519 curve. -/
structure EPoint where
  x : Nat
  y : Nat
  z : Nat
  t : Nat
deriving DecidableEq, Repr

/-- Extended-coordinate point addition on the Ed25519 curve (the complete
unified a = -1 twisted-Edwards formulas, valid for doubling too). -/
def pAdd (p1 p2 : EPoint) : EPoint :=
  let a := ((p1.y + edP - p1.x) * (p2.y + edP - p2.x)) % edP
  let b := ((p1.y + p1.x) * (p2.y + p2.x)) % edP
  let c := p1.t * edD2 % edP * p2.t % edP
  let d := 2 * p1.z * p2.z % edP
  let e := (b + edP - a) % edP
  let f := (d + edP - c) % edP
  let g := (d + c) % edP
  let h := (b + a) % edP
  ⟨e * f % edP, g * h % edP, f * g % edP, e * h % edP⟩

/-- The neutral element in extended coordinates. -/
def pZero : EPoint := ⟨0, 1, 1, 0⟩

def edBx : Nat := 15112221349535400772501151409588531511454012693041857206046113283949847762202

def edBy : Nat := 46316835694926478169428394003475163141307993866256225615783033603165251855960

/-- The Ed25519 base point in extended coordinates. -/
def edB : EPoint := ⟨edBx, edBy, 1, edBx * edBy % edP⟩

/-- Binary scalar multiplication (fuel-bounded; fuel 256 covers all scalars
below 2^256). -/
def pMulAux : Nat → Nat → EPoint → EPoint
  | 0, _, _ => pZero
  | fuel + 1, k, pt =>
    if k = 0 then pZero
    else
      let q := pMulAux fuel (k / 2) (pAdd pt pt)
      if k % 2 = 1 then pAdd q pt else q

/-- Doubling table for the Ed25519 base point: entry i is the affine
normalization of 2^i · B in extended coordinates (split into chunks to keep
elaboration cheap; certified by the doubling-check theorem below). -/
def edBTable0 : List EPoint := [
  ⟨15112221349535400772501151409588531511454012693041857206046113283949847762202,
    46316835694926478169428394003475163141307993866256225615783033603165251855960, 1,
    46827403850823179245072216630277197565144205554125654976674165829533817101731⟩,
  ⟨24727413235106541002554574571675588834622768167397638456726423682521233608206,
    15549675580280190176352668710449542251549572066445060580507079593062643049417, 1,
    16552979481334663544878610556091376071931149008662153799327195285289362371585⟩,
  ⟨14582954232372986451776170844943001818709880559417862259286374126315108956272,
    32483318716863467900234833297694612235682047836132991208333042722294373421359, 1,
    15591078450528575260807955779595146919206594628260116491306850071973737403224⟩,
  ⟨46706390780465557264338673484185971070529246228527338942042475661633188627656,
    15299170165656271974649334809062094114079726227711063015095704409550798436788, 1,
    20041966898814491726444579060880528788025287386839181497696933332457633763775⟩,
  ⟨16121637619009607773439840283436156467545443443832420589584197780484295031288,
    50925107901044861941301590032293890690813323578124472818968980802518735333355, 1,
    8124413159588571830372899760804653409298702349860309863812709235480468626390⟩,
  ⟨26148317933504540005443173402042326458672162458767831815669826413036406984486,
    30850316547316149219369061290562558254923949145644564178378051444253659681385, 1,
    49740399161426032932139373005095262712528898173735334836839451249756894054047⟩,
  ⟨2703967047724422927942795606844806438471095130334849099131707700624039388171,
    27636351750987415494008535949645960827550590090960186204735008729987540453670, 1,
    22645945933674281140587610878838865629536203181607753132167188847366227300200⟩,
  ⟨25155917782814837260398069725241853231864729763246304429004555936282046356871,
    18508826420441071939750277538143617204571229748311242415842946762595677996796, 1,
    28255934015990876396835182447625188220584650644680008791509700496723788466886⟩,
  ⟨42740085206947573681423002599456489563927820004573071834350074001818321593686,
    6935684722522267618220753829624209639984359598320562595061366101608187623111, 1,
    45190082622104628312424241671176328100266152815574825809524629283795790963326⟩,
  ⟨21224688672439988911666787158810613738323773477623112347883957939967013762058,
    38366836778969845606589656703794235990595431744668605526092433715493688021992, 1,
    52993498652388747170776059107235367940069893473374626431275307784703556584762⟩,
  ⟨48427913736837608266186835246980452511660467837864105011084951035203551898472,
    12175353081024358281744367214419414005476983323671937693306148471852937756989, 1,
    46495268282186673125544095118715147387064133624640828383339661155530964615084⟩,
  ⟨27186305465236551749842573802124445331552679641832078930108365447931276498935,
    2312041997451586708872587523550236508157965803316305389071105927566014363214, 1,
    6180570604009350440728393675017435254415269018264322255408180225748186833284⟩,
  ⟨56574002287690562566387008107654176112985293065528815433473093068153251878634,
    40555259698712479228142211631679471073561232444601298047972603499607234388181, 1,
    47694195569265988180568496077563044120930293615753979484739072568851707629476⟩,
  ⟨10780707225527799223727042055056551995903319194379151477081117380874163309022,
    52019749602470059668344983068026172384793681144736228079710257376320252456841, 1,
    22151050159598718000824632839360862287443212695418183222754214503199414033276⟩,
  ⟨3464320599267112696879288753247079893959896359625474425290602150960671705994,
    51694133746787581571724731688211103718833232899104586370422228323317173487873, 1,
    12410639268434563117656183499710036181521524381704979281979669106169505996035⟩,
  ⟨41301554414245700419639718923570458390119154231634759147665520927567584100098,
    29364674778601018936997556626806786174514088488710242926018946766714482756934, 1,
    28561246049927828101795769315452798103178873090017356901246811231297454880799⟩,
  ⟨42474966419402231471674152001358115696747244471432888578155981280875302200677,
    20182938281251249849712136486927848134532420155649429100890386875073412000822, 1,
    13664361721323129802210938873361597552783530985243995323016058555419267517089⟩,
  ⟨52869748631960986034856376238747990075784338722812323924650009680084842073895,
    3796174517710171698598804855217198428321733657889201949428151222167600506353, 1,
    36198129113847880432536743064857659430185746807428019971436497145765773382095⟩,
  ⟨48142588613070057936665739918694510016346910601601381787709232357287830656052,
    10385474060292222039643213821294435966838835008701008210657350549376377214577, 1,
    45794896526220341663685371134854690546978524840329220096458378881627849243074⟩,
  ⟨16394032366096881154453202042718985456910765089875944486157716261812202804788,
    25091281840661552205135748393579341584120703124592003105179293019326456324854, 1,
    32554118880109915173843239536039952849279409455579901328664719854407113195416⟩,
  ⟨3030652980257820293954590240644581873411659236202283991563565950415750739437,
    3449896845806921515373747351251070124616437120332303971385432452490848855288, 1,
    837913252601431597421498049501486032401634533130800224872491665313403819718⟩,
  ⟨32641263228758150355667687431806095122956256108730064648049172982697192869757,
    52273704419139405159775014317290835933664475552332708366394330415164319248459, 1,
    45174265861687882592505930389536747545671242673507557512974873697321577903496⟩,
  ⟨26993053454492735757774095526931594398941435313067218024451801426996192317244,
    20756573878643363325793821026438350840612369149764266371668034898098235986297, 1,
    44832789822879965820268175176131575587436969155863233790824184831194930567603⟩,
  ⟨31520167665919384194696730538735098277674977480128774019718915946563876798036,
    48871947419602552330465379555019735272161840172752412330071639916632071437120, 1,
    16085320380054124039335502096414875440049960562708450724055842092618710006417⟩,
  ⟨4953187230743962930662113245944254306680232166954327932822645132912059759223,
    14955570584878506545981286824704959560776362796341363640094685063311756888261, 1,
    35904166375489452817137140598001589045575754508954150922190349373018797885359⟩,
  ⟨19657949635683093185289569710211585343964433529222332533539288290160154185011,
    56892661656082980073316383795158683496393820909924608301927348333889896713218, 1,
    4523399798257254590754249182144745153245192064643050249694357589298209563360⟩,
  ⟨46976510156322507137269201780554059652401452413839958562844701649608332008299,
    25448670393978825583576233442397517457541692536451699283561630611656102572950, 1,
    13069972696881662464176143830263831955044910506444508678823835549512677542230⟩,
  ⟨18958742773298937073755619970621164217249748928981220693078384958060703810681,
    49060669014889618634034845030820105181036997350936347239322049348217814945797, 1,
    48321362862264909384234854733589287260112973829205462179581146607917067621158⟩,
  ⟨13692443628628542482398138298848103782249043847728748207160598387591474036267,
    6535661448952062909216951562535374120699607245381865810845630213621355776630, 1,
    15342522473192866230837583424334099165560129800655123186506064852181609174139⟩,
  ⟨44073126145632928819502260833325828264688543470827754699842109261297194996573,
    25708642289863751966302024225237904726630733908921048717331198880892436709901, 1,
    56265645933686757449185279007399024171811643902724938752351785624581006846526⟩,
  ⟨32998196372564612992359818786763423324015994136376432300157753889179321890705,
    22310901527710631603180993315816672899331474004376446475717230095796374000992, 1,
    6953761957982900449656063395150076493896967611378394665603189079177799255493⟩,
  ⟨54882909907635354958311263340029521311980981711637644057731212095996500430552,
    42932185445836734984879765196158360688663229692937278561535355964359997581186, 1,
    18298544064093672336254536850579619801270833642081686504947619866293205546361⟩]

def edBTable1 : List EPoint := [
  ⟨34881215023217925273427507880129132732978197777830040111026122875038460546235,
    49417579777138232809020590461442191010157021293872759678974198530760482863386, 1,
    55450006886699097850473134521998543461614749775831529049808198832293454998897⟩,
  ⟨34085450069500794510152409520807677869950508039913904939590977699961040436501,
    52278291416665193925925829527972181593462278765769350530558236265859287513035, 1,
    6446406076878883164533341186824663052309953784530127776470524942864456901624⟩,
  ⟨23406589806172960174851795884335653806454241620752476244917220156478142938335,
    37854925133430588252830311134599570623631025784885083249593544768206604501465, 1,
    32048662158370501651638383871353832204187101492090984920718339102748595281067⟩,
  ⟨30886537925985998524254955874096819652783119677955825045199375216769416949702,
    54037904725904619508111005987774813902206702994070596763696498304265167397445, 1,
    53658060534139097763126570635651550403869388326333160534303832606993035880617⟩,
  ⟨19639451821147740670698624700272734820894813909735291580470206199768700605392,
    57494903421850047051437277431621495081848935660098712752929417894600320224466, 1,
    3122081717808172628843919130257368056159335319061369468836479314842844397144⟩,
  ⟨12469452200683121609960440379957844757586634886744101850068664139886892025012,
    10489147278187110362134995111963226564141046001348941075622680658741593532648, 1,
    33414890102189295534900649545035040709255132555922976260275621925201284984871⟩,
  ⟨549689331659327561605194692422602825769416452111816234011461274565005995655,
    51469744701391552480837245041655791053255331145812797331218148961728035441779, 1,
    22883699087480553743483052509154260312160700959548774219655654004825535055944⟩,
  ⟨45113617814944202352153583642261178502360614596484279216729123193977391993714,
    1980278042691965713981149139930452264163076071667628639090250557504770174587, 1,
    42514426125661769260058301094397044005663115628621717523018535198570031467450⟩,
  ⟨6975916580616431138430993573433071747917420592434172169347774209021880766693,
    27729946105412964655112236315850267932468036882545041507320998583854342562650, 1,
    18408639415301046201686838874843235575286973466641218752632030265278046338872⟩,
  ⟨26721402367527682574942110461580517411213448744716771766358148163877301105728,
    9288387344892172799170744310978976179910527092723579902952158489343272868948, 1,
    36702443156538073551760730366593961591875231585749729043684442456472330641546⟩,
  ⟨10988524301762373242246727351929902921498129982664316002800509126742121162784,
    28440719635374571293396157229875541269413226941353902928329788578666889313331, 1,
    29766490078062356793263506445277479941437805547176997042076394190676944428167⟩,
  ⟨40716425138725944745186331899970009610267626729218118393270956274853491203124,
    46769152930682528968583401401235025295039214644177585564512426226384755878073, 1,
    27338874750841438619526070675517457437000999557721496913758955756474694858417⟩,
  ⟨37510741031459341378829814964903502667912927266993467424549080808057139144766,
    57303500313920857781889356400330248464357243021787478340933447880777082073539, 1,
    7363129277722595474935336375675466497624125840692059452026432607525958374839⟩,
  ⟨36241354563762173459705108462830400635564419268406145900966660417613821977637,
    21485101354679558701669270959816344644464678765615788190638683578533731429966, 1,
    52318607035994564412860375864151544591522289396313469574124980886928171577603⟩,
  ⟨20584796599643323532861987265526248228488799407283500188808238372131189701480,
    26478740800733269288198131365468684670960535144929794027484143547518195267108, 1,
    52591812484226085270612738911347323365355109191762834691951864078521228047910⟩,
  ⟨39134758420864184254969116302644788663556954029588642642423917089530226989597,
    5124259569483350729196958378822907526496602783247669422492733697864938451662, 1,
    17807642223273942485539909790431828387941587582238528723782056953754717812931⟩,
  ⟨37386868568128681599499830859763869162133292900805977973436494315455022169426,
    36563616321823734465666870349235432940379598201907262626645125270466793116054, 1,
    56583979703411916882932154846613088400979015318514747688785230390140028694546⟩,
  ⟨28582163575878071020286779611073458927627633926762077980797377317166201949523,
    29517287490576008752010229265386725675942288741512148107897703457428460766064, 1,
    47329309199468658306920108621065283293181324725226367159337271290951929759119⟩,
  ⟨6664938945656958224937745274414537263586471401885907820916253978327430063844,
    2126634075982654318590492885153132310981526013601685661016577258450272533730, 1,
    48358897633759715225596321528238085678630066885614054890096897164929744758091⟩,
  ⟨26893906638378427820269402226975745300041457754729633179574373243303786072539,
    23888113636819035429926907107258444263090323522691660954731306854220582218409, 1,
    6566018336193216325911265768803656355213526754227263191813385605921770051483⟩,
  ⟨189355175404241672738129259114556965478340615081311091777345303360588540836,
    51767299105794865359908754261640899704919154549996018629901376258684159289317, 1,
    37728407000571974825017289759833298152414496648295915347572432767815991083458⟩,
  ⟨14160459449409432346176007562822108240728702992215244509282193488000767962072,
    40953833938605278231697173707354259912669188943485919940833211413684494670284, 1,
    35614076081522917773686585240962543335655700012194476801702610469593652438631⟩,
  ⟨4068261697406638961935849621742963533803537470089883744480903389537982658853,
    17740693327176817854801454122587194558819032432129012706849247534385017891832, 1,
    46943375834394013388880581448517761862447528101739945178489527961850145860933⟩,
  ⟨11823766772564295466429875255239566661981081448176083546584427805840615152756,
    54040755356101629851791062456974045253014690287858169301317937866514626344693, 1,
    7228852966000589522146185134820697748285535055060775300750398357656912208389⟩,
  ⟨51502639449004291622700088031154688719483163480862436225495097465744471100900,
    25964330211653062987717188781243886463821901684982951650673786718455132103697, 1,
    38317642312210954027635398252908819991782675198528889188269792595252970193743⟩,
  ⟨21734724549841690193090842476809076716419456331211857741265759957945129922704,
    29304975373538996048835671269729647815982116853415896625128567603603329907841, 1,
    11657061758660818173365302068352874721741763806348322850356254281234951842294⟩,
  ⟨30001687184291412988809724842551122044758922095287536204847335704949115767033,
    50835770704986724242436677611718431048705647431520755367710246538243619075335, 1,
    4603211022261203990029032018990026602136132108028843195363461212556367609914⟩,
  ⟨48882273411393669122044540803817352985557027118982854238955416614908556491266,
    11407218847596422755991434262659321162615585973279975075808294900032260014207, 1,
    46793189066854832926531855970043131821266249646052524465103067372779906799881⟩,
  ⟨39468567782001629845469931291703114351231301360810771182933666088696363117813,
    48520602033621835552297087477366344329736087438136796734023135166735240273716, 1,
    9872084444207351340321441493399001403586287205237122265895727186172937118616⟩,
  ⟨14634154268926673608900308779686697918188551795673908169701089186353020356853,
    22635139240448021868201029866848773426210620100937671088354264929878430660010, 1,
    15911884511005566676282293104640197816655072772833195630405302604986741114287⟩,
  ⟨40334547811194980222132355507048888492367411465942395326465999366654848330295,
    30141215867806221944935945054462736214036523470954538064480540475644488758752, 1,
    11192042339478110700095491043882329867236060505358123159591631576744348535575⟩,
  ⟨1858744241653336215343795677286102722518125133862047495966642301222759149346,
    51688159461706094879304629140765766764511202268320054417312410136779795003785, 1,
    5495084401660452631061616883313056335601062133206433446046602487240929848558⟩]

def edBTable2 : List EPoint := [
  ⟨44388040078108422381599858079345000847427885062711346041771517276226329616898,
    1423604317745427322790381226394774763053130405907994130724317794966956167955, 1,
    44572319132873595455842987266297020623526171197071652062676750099116673206361⟩,
  ⟨1010247752756362260881243234901448331704228065985397871388404881884689704343,
    34905110436806704375115117043721051740842418404017689336019589974414716422638, 1,
    19849296478328768495495805247695997168837367132856874395156421056346847466394⟩,
  ⟨49444157831517844751255683186086055092391671187830014667142777982061391761769,
    38325651754372413483217343763106935496036760575967773049932675282070249514007, 1,
    43678687874783753989238000938645889054046194408155765536265092054211996908656⟩,
  ⟨48577842308630573365019333121847151099247213871386595032531930153824808034985,
    11698818496297094926714371527533498792080572905846263409223249541482347665093, 1,
    46361589381050185680625026890177279253421462440776560773133113149222398787011⟩,
  ⟨51416308261230323791972553180748498853602467457543596950952167188234310296102,
    26500516396956780220658887122604521806411632574870530108424521362596479422245, 1,
    30410546602291582670659393086327772426064406181506692647141451638117341897861⟩,
  ⟨15426476579153824640063748107939638128818377676814173710932605230473017653035,
    54874201845107823946446372651255629171375058352614330916365376676602781150596, 1,
    16908203726395530045473969451787185160558465998629937285254021128267989368067⟩,
  ⟨12712558393922043510311116546282894497829799292545297912541506421626765270056,
    39685799954857566999031473139583267673043941812564928655249869908845569230293, 1,
    38598111718616256682482540060487720632277835735957868974528671049269819805741⟩,
  ⟨35966709613487039836771455641568151899303686490727459701589928757130906345287,
    4590715909301946484670322652103488894781039724476604802293138388114824244525, 1,
    26829535402774552580800680567331033539880934571920642580760763613951512763619⟩,
  ⟨14209203893922473311723595664823042609383238336090280855951284872268697714335,
    54096248485646036580969450637608332943982160324686939405543494070853926149657, 1,
    4975509444067247565308788967192026903932001450383679535544650631823633154885⟩,
  ⟨50225331128728478106780859889537807505048902429356838599409066831481056211564,
    48567226733225781276449566422287543329128010889111409895804967816670485558982, 1,
    17863636513371094960873524169772018094962086971645575055616983034505209094344⟩,
  ⟨14277504181738407774235093378032955288190316525985673811547794837958257411428,
    44871378086723879356737413210653521226866440740474535279860816276104559603579, 1,
    41317564216361070356463726464854876757564603485380021172701403133098881785732⟩,
  ⟨32418571708367977452352489589045334204504079160877254915429124079150328663559,
    18387148233383658620287056230463085911877635595024572348568551271925735393572, 1,
    53092499256046470663145105538237891968373502621583067653845152344714486068263⟩,
  ⟨15779270961168218795229828090701533240215204226023372799860239005869904877004,
    44830166261951740603279398495576682241725607809926503424472229723689170610363, 1,
    20216654933011384493649573336196555461020639325992896191228242800226933546445⟩,
  ⟨11934888751358376585367388605542262864084187912753477682625882954803615290685,
    14214449243666306908341928066213895894989764915988732118960193112150360243653, 1,
    46036577408480392807501074665151652824439678219063424016545300819209019298090⟩,
  ⟨24745401508182352002952447462187517145313719592095512250459315231990663674346,
    12605203304109359736839575646170095420028150170075032505021828813425976392506, 1,
    11990104883221028882767868200242142529707802647264116283082279345616689071600⟩,
  ⟨7139742008745815782467698207918707217570867389629573492211592981809669859250,
    10391024330052931068916219853641704524060189883573610974407450960946334497572, 1,
    31038492518089319930323066720964000847883616643340762019458468071793308006601⟩,
  ⟨43672721813094808158322153823698981319419680095264823938511427045013292716276,
    26774469600843634339468622105851699981555180542412972644232493480876266571002, 1,
    29692651458458722651386678943218269027918203595633553304967606314881341146280⟩,
  ⟨3989370560455708984633793475698444523747174347184717690382157232120584787329,
    32505703979076959151485506556792486289027941138272760644562679672175933443866, 1,
    21782269476313215386108743319959492452395071861148320412476336753633142945529⟩,
  ⟨5059886806144239654386250234132239322534981646959530787642810205204823263599,
    44781990901350621119000479168942884261150661419375333506507720470732519651804, 1,
    19658369665235245082149304414353253972531841028835533060650594893938220700934⟩,
  ⟨5034499113101539419171195675489016129397586213000300161297322761474792468007,
    38984291250628169793609367006953049629309747617110716218706415095166866209475, 1,
    47700193514050909956560050415656228829951284728850258366301701015505362367010⟩,
  ⟨28701589195663402661877848408121388944364705228705833837290335451947214372354,
    7204387230095814289155112784314167486479491389461677700039482462117900149790, 1,
    15828852265494758598689257559483382727910318521573488710566707110690670763182⟩,
  ⟨4043104448796842162745666493312998641829351915822871392692138036596732345587,
    25583947464430871653586840964872231498494354583644780039898113211018348195426, 1,
    22010513831528394592904587434045697391277219438079571537769825521642273135796⟩,
  ⟨16967413801548701797242886843680090165318588349974756792262810250234279035069,
    44697289841450513164033704384247986028022748316827147885385602092788632953231, 1,
    11164741149164088860478908496572165269971705595013781226447418203528424620879⟩,
  ⟨2579649274306548849837733000395332723289589758529702916422942026934274000925,
    15903853772550703579537912563242422228297542773675645660330868481778530607407, 1,
    50771815812744765018267903330992310186815714784545059138135622637712880793642⟩,
  ⟨47877216812782924174466763867175181383956969618415943364604849026510454529253,
    28112003636980376946454994616205437214785284325558286572284790568403397987982, 1,
    39953339698486268802200929093615089845653556727898565227043544080495690841023⟩,
  ⟨44624650523877827989751820302168351134993681066479444271153806569668535957209,
    27714478525736819310693039843449131161995095049081766735341612278922679271227, 1,
    9205726195042407234123636793485231167026848696830507373100660342512761027099⟩,
  ⟨35329897255136253373431638007078284535646557446689786639069168126562061520510,
    48102472413184753722918898271017592259334671993463580839736558443832467501512, 1,
    30459864909311829520625569308862054915393657933846545777330876678332923810594⟩,
  ⟨57854637032597121065424460477283781507211162156907553379809587845807142677871,
    8595708305423838218427337239184970131694134488607489845436010670114592093907, 1,
    13371892329241515192460153153499438082522657928415455731861483465714883751134⟩,
  ⟨13661732206155304631473207485375887840040863051006406460921523783662717752866,
    18702667302471406267943646186561629076477578914690077859029294500205891615865, 1,
    18636631121321414363834053672757474783051163001957490629455523040235890188756⟩,
  ⟨34678801872141263131717568048919688293891458498596049038512335591958388269398,
    14051700864432503195603174423174243178139259455397278969489826247036072519711, 1,
    630640242978021335747709937409030970097222652370547565037949077903315607406⟩,
  ⟨56271287709999114249430521279143619599708294450613804315340758418615759138947,
    26709183970593361440546052460951843372876673094798344582055628577437062451, 1,
    26000283315058385718310755894910762223788456016448721626994851947418634496846⟩,
  ⟨4941794609987678981879188000114348043986995390085707309908914207158224370220,
    11393072468401385903230649060352828887982933982104030268046685519118680025095, 1,
    23890735769612542958424550405637298557479604195731865387875257069971051011896⟩]

def edBTable3 : List EPoint := [
  ⟨37070215148198071430799085968753265750032279687669442199535644547659159008720,
    24277510719184982406390712670096807578634110983235809048632298767886642985665, 1,
    35111111540984543632653740550983724599536402332749403350774988695760688040209⟩,
  ⟨39149621700212626749621435400351405351231184907008598760301451381081013983041,
    34503224398479003962600496102980592214075457369331528461237883842917276072424, 1,
    29204152477896905209316732339779447644267582339747410024832728986567083464943⟩,
  ⟨23185922985978961765525879604265755828711139395011139482900477285540574790618,
    36367764535089816925445391884049081669258296710246889978535540710889807755205, 1,
    20460535063640303919461705600906350403143575321385940858419501908914198329531⟩,
  ⟨23334028275166191184164139591657077754376896079733520656064186218287653342618,
    41978652946500496924928875394389872458253357230394695728294241695963720135571, 1,
    41802751677285081218783943983177505492091302797970003777181117942423767156297⟩,
  ⟨28796363583862847668812044605178507244825877227342242014774155208318462834757,
    55234959353662462202983325031925176159492936554011128458548182362800408727260, 1,
    34867848311525552149541212307538424713480122205090125394046458567857534578731⟩,
  ⟨22152377815713073885123024134220181662013025517934765653685593051807730951109,
    20210740406512502967027943336656788111164148198915921899551468572151061000341, 1,
    37801792846738321984046147415129542773653191509808566433653081782568292178475⟩,
  ⟨43620949520144324161844112921540314179791160756548604822571317354672290688656,
    55960850383955117084497078728968100220583635988916106362750056582565381170825, 1,
    18261108715503907787639698127932644618456631627581130301761081739018297355761⟩,
  ⟨13910242112313529748247338058346265735204793031963188360415155111564876935229,
    28026033346964984143781324810989054090462624756509060308165423548333335784666, 1,
    56760693409997494309001354461445261382907859295936477196810239989673061250724⟩,
  ⟨11371879162373812903597632893053130771100210169456679508604354695621139343631,
    5678923034335803499854193512949185707312411812586470592763075824256665264606, 1,
    38107070727229784885304399761175946507407664445189676240769926092787827351429⟩,
  ⟨18362839244894279592215249911553963787851060777743113998886545263569847927955,
    4210807820446419651105742493190316853815492326276504789502512130186582234685, 1,
    24070922479069042283203599593216734819774254774190342166260409047548396587218⟩,
  ⟨23921107455925441612550629086478938150848187330668405596858230151041390475098,
    12599238266398634998434556842240768274292438963378237556139324609460374067494, 1,
    12657216457906541513922650052004728109288984374048301564551828589787977539556⟩,
  ⟨34696320127735655402512265767697602636168153659137920083789137692959599647944,
    42120638134327975966011272240411516459099234670144041314385743337890494036069, 1,
    21409430351423200412433706044042466754506685405211356749617643379932063468249⟩,
  ⟨33227521516354605999830589514515865710822327852925376114255137871690735587244,
    22681039011760707337500602565057111277108423406256855863837270100715275112616, 1,
    46635464134983549894892899180883113134775851619075429002109487723353433689505⟩,
  ⟨45816511225176877996140255040609219587091107439457578341038316968132283752617,
    36549853415134963004198791385929027950142848447981419764990803009399724054934, 1,
    21403777906207674038378970158233840688647711021143883915663938863505409298474⟩,
  ⟨4109725613230504426324669336546893204699348150375590650961079986402263006479,
    13548220015390787328262599706228652778399536104956932282542935971617933593799, 1,
    6577738565729885577593684652033379609115650711075518554768067393577964993222⟩,
  ⟨31674252996734707212481088088643240141425643801543286253248344469973004656554,
    6786196619175573608309283443380719738877074976577908471831120085453336700494, 1,
    21213080602158267475608640737103086799270286332650616126688766641074121115203⟩,
  ⟨30407400204072033917609480172618297228059702465168718418817308450301417256315,
    49315877793598952090227901245738270288685983126601288875006392048674637302542, 1,
    35187445115013480584449630665796615226086542422399353313325934559210743563421⟩,
  ⟨44417092014879103586055534704850737242542372632022894149816268053224964424171,
    28092835439062208164608941398448814112137896638247692330991965419364853280613, 1,
    48531848830497127190917458902887691738919709381063364246753534833961462272744⟩,
  ⟨55913645708648454082380885333952414587415523972517829512720425474171989429039,
    4170341877731070479064719941590894238873155105706772330803492495594024043916, 1,
    26913872202255953080627590844716150946083053989678329639231180162424071261973⟩,
  ⟨57358306754892087581061482960601343272150180511706384027111409727530014615872,
    7501227636099754662821696917164574092234190941956901631865902241653090361542, 1,
    35936091494439235029460010819927767650367147721502905873935455995229631522494⟩,
  ⟨48782782515836871628938299209492917508321674529612667649282153140637733656059,
    20014236295691833912353873433172840618145541540180033958100959161035845143094, 1,
    16324921186737112315829435542998497945699870423325273797190452355162889059432⟩,
  ⟨11618050754323719385443732951567856244563825728122233676622712000620990083402,
    42578444816027188744577909552774348432010679314070739170427174452067063733643, 1,
    42177520358070340801541137415099698134788673131271229592327392462671930891682⟩,
  ⟨31547400550276104307900899036819671847265416450370273588479799778844560833009,
    37367989165521616201930780541222369146292023138676617257266389707008216833638, 1,
    4309272136459255695269943094171929475470987126508740885122848156311858047458⟩,
  ⟨25956985989161136316235961527236916457717926829394295299028523314216733689351,
    50364565591067077996626372578228644798066456462962263809084137884269951378152, 1,
    47467396108486334865062028498099573165349563943959313779579115075957003165133⟩,
  ⟨35118750000941396177384144572236461584765045922296921590426241445782749078564,
    22276559719444846469370701617737789620267379936674566170770241509797286014565, 1,
    7409144969870103820524925611972696916688721049115307139576546451753046568819⟩,
  ⟨15495667847963519095070902975254013254054297059438951355864834066532640060236,
    44548947909159043917403409442457288878516759169055680620236387754235369409972, 1,
    46552917671790097484562517718904298076643821420777021296917491467931252782207⟩,
  ⟨1871107102280547590065037923261765627391729441701934941391723968422325914548,
    2197280331012323570322413448915527766660864684378650497684553118254920260348, 1,
    42414000632193492548731604098584829473083930098332983081973783367648035050346⟩,
  ⟨45090698995977474290632961691477301097024747374015152515190560720018468165568,
    12254579022675596810231884862276069575540423112673550018377525848277481401878, 1,
    46789133672297026358009295838471323197393040457180671883701612162379181008258⟩,
  ⟨5054797618327281071443738716493596768237980643463800357794684862056619267462,
    32528688704343641313631911710448027152095479374942741660511292005602282822378, 1,
    47985808947650724724281455063829068565248703916884836757988464658757678515212⟩,
  ⟨3116396207800974126741352651042756943303008617071878591507809562704911510205,
    51997965663228500457050430249387147003714475761347555819390336249670266088570, 1,
    1998577488736166631470066964698425100045433387161778713947904619954702085702⟩,
  ⟨14055490458127722535889980752338964994832593866234835702288268286656839412260,
    46226773486422651493508693434203867574287052738705572908570241545752789081928, 1,
    40231690909147444828271641806114879703273907829180457913286581643205576710989⟩,
  ⟨13255665929656146281080449887007641909509999304849491744738638209813853897619,
    55705207129829464869897097349416518624188726193119147708421062336186161442401, 1,
    17747523903147214068710475614443526042617638164588231123624066064919149405459⟩]

def edBTable4 : List EPoint := [
  ⟨34445898214599204196824587830670445739267303633182408050117152659121903233060,
    43048524062920118298805915568484795959327268000798232147099016825120495085163, 1,
    2546723617105803217066704043024384113612712956060210350476893017486688072586⟩,
  ⟨54468161356533199495368251232949756902362822455729558615345521844455465083013,
    45786733715774964106052639328220628713810319567465451448853998335128869152566, 1,
    8493667445341245648361292062270796651158721786810104163590154947632220300488⟩,
  ⟨15376680214472594388297076775801069075796453668683777673974256464718742858259,
    36205286238381305703459570197756276983310200040700818089343846617668540962560, 1,
    11543757158601053623050530508501701193774440978633598706901758191197578559992⟩,
  ⟨54274963091825622044577791478482498515145581213046587691569496957317047301087,
    27285522798141530128504086038099622016723351071236115824010547114802360418886, 1,
    17023168053045613828573237880834348116297780257693827116166718009290689522988⟩,
  ⟨37942412147879734959686621287259586646044807806439978247498433186416958076212,
    40770361754437038489696745253329122740022398239053503446707608099886984844633, 1,
    30185590615929735332341640850424242237403133428599950940067263857475226852114⟩,
  ⟨17231006463279304495808406004880729304960913826842545830265243222417068568757,
    19280465835015707631588249295317898303942493984599822014052743382308408738123, 1,
    29835164281394492533023882194781356042274058281343281052673502917275177105569⟩,
  ⟨39092909358370372654020524663752406591495431486669946290258989674569902550026,
    37050683729065266636842675039950838965254845010575540488076761681884382474469, 1,
    13176772582110361055908940303795760263479665763119049045997213565346602028278⟩,
  ⟨15070675337805841565478348519275854649061840390095812435576448332196826360456,
    18999462048279945575457515766054075398079717893385245098240709885855065273590, 1,
    9587254107041142409535886029366759553692122259430104953404489560234322627382⟩,
  ⟨55883912999791610874099966987147290610183948615152237875979579790630856352726,
    12787813360355090873089222731288484058890848842071756283908784376987452902533, 1,
    37215819195597225906733077543471374188317177722219007369409545129793948129206⟩,
  ⟨43257177485963219795473619209211102129326623172848454308219645778053046059400,
    28725362628639569638299750482386987410574500918275340685442582601975227050030, 1,
    40698236467754804752927967690878316375864949857139230782390631914444160458649⟩,
  ⟨14261193102427984812343991013294505465111572298989384813880738230123360681467,
    40382347136863815895035877978461159372599765612083907993477560360597463517013, 1,
    2872680352197906790747745629649296068697748075273924431175921359386404703684⟩,
  ⟨4024908508817066770060371964586666357271338932233580630221226449897808710343,
    12289168685784047824301370807824389053540767440464242302468222694281755949638, 1,
    5907312027531315753173820853566290383433239327337944104534623466390607639496⟩,
  ⟨54516917620078961420673783705678923776679613142755615251754788107435261001726,
    1473028836296644744766105767035670826571860886865560306098170332602170407925, 1,
    29419344104440801531536861285932825966849008763859114075171152513791234780728⟩,
  ⟨10643053031046901577316915265991009723287046285403078869509160086835661246719,
    5266756857958965790207505951030385887811027434194432324856656452622884706038, 1,
    37531998771771892061249853899464171894697015152106330328559159220200524230103⟩,
  ⟨885653457851086759173454333350358470114919007890473533171075804016312509788,
    5173873731015455898843145409981988213048728441860738710127269478567836908624, 1,
    46390114412740183143230293367457454096142235475039873308805186915968997158082⟩,
  ⟨21621513170862521099530913770180462793295136851291509893158492413150529922623,
    11869068989273831198675046236996322457470416332996814632944901924274302665087, 1,
    23552698518294729278142406980452638691125392732142181431469752290991082186292⟩,
  ⟨19600378045657556875289925355351315605889147312093060723319760395067636662161,
    55917308400816340940408390548223513438205960913829150880571547126642528177519, 1,
    39899686957124757334732424715163183046072775688984097252014070424513489767468⟩,
  ⟨28658754282729672882100872941658788065524989174348966960536451895469243658010,
    37762667404419404728133635288193148665768828242655041491126540255911857634224, 1,
    42888383545415961445003706756040338185852554011979040257760224530638009208792⟩,
  ⟨43989363110060799496526592551177644111553271892145685238033036627888703862877,
    45195762653922475880384045212304509155155597033569070505522741599100348519449, 1,
    39797265132532711068835781655528511620644340839990088011558649518147696208275⟩,
  ⟨8902490268397843803802527325209899535197727256334443541236481446389959573425,
    3852752280237905117009160546534950954901072829321467116969506308368943816516, 1,
    15549426061611026436610324367399796195411910373693257691366502967077204787838⟩,
  ⟨6986702789447486299255325584840115837692128257688346505060373904960228934887,
    10292962987431499209806177702562716293400171669371976579676428374942177156958, 1,
    44124560566436098779313679324018753026591024286740166105182254362326390511885⟩,
  ⟨17044116135596505028737179346678509469911041975350358568755082202036985870107,
    42455180672755106883951150046299420740744375609364441069727100382315725009513, 1,
    18680111376296432019424544880807389746292974508742006997681513032200570651085⟩,
  ⟨35699121746649840704418034923098908337241927255079104052577773022334802256857,
    42797427239513741210424919482406830061459306844682386746523008648281197056610, 1,
    27823505130739788650972985832868778896145917283360389832860610845145518470459⟩,
  ⟨18325906839195889578789899993068057797851367534956078601965911799634346506748,
    22616100759195716946399271549482498388221224000801885013458519667084159593279, 1,
    12794313812139362977904417380073499483484912570889217804507829492790392644731⟩,
  ⟨13048931295659041501322229995873503013594860839855087692129062737859493222938,
    55356056475575935623708835593923975823491973524220303008437518991732678646755, 1,
    49963983796323580263993243533601747270429038215005018188137038993379644188496⟩,
  ⟨17804552021948501003473808784482696744755975256217624996860777200020497779224,
    39742389178857970929201271717901335006610649140129837785033274071125207857467, 1,
    35273753037474837238260826834011462794680916311289143853807927770956436229867⟩,
  ⟨27243750438325626901394393635433659784763126423439206380432702465090275200900,
    8334724468222977727927796857102326960164746806583065065856770832763465282107, 1,
    22064033465043547123973209411922987515510029466669558679095202723401857606984⟩,
  ⟨27531835895280592308108478914989633679052609083143703025386917874092532392021,
    55158672890636899211646078797224456321544010509658114982139571230287299483895, 1,
    17751709787339100870783805411827834855736359370306813476521514323182264045514⟩,
  ⟨22459022010406441880071998423128997707946874444377105141084471424789185546822,
    53825991541922386254752026760877422413415158982488042561091950744726508263312, 1,
    20775923157482545670930163487462150293664412633066592104203073556330705639461⟩,
  ⟨36410947714736514685678444986951589358749307344893388745013989729585202274689,
    43412077953637696023084925327019822207496974679371988611880127736118415232905, 1,
    9378227662060820975838162174489715997365259247581915392737563755536090938058⟩,
  ⟨16500068492966065029940089035493110962818486883169745913799238267083281214115,
    23428262921037128435634015506312194949743083014841069563773867982356615469356, 1,
    18519894626590327857986424604974319116328724597675481136875622759505328103875⟩,
  ⟨52017698461574473160794941667109584858545935730947521527680867047974376073376,
    7882353656296193450631397862206626290365575517687412797407255073835670659135, 1,
    40756426704631440540698760455484116663263303155886645725211194603041773180768⟩]

def edBTable5 : List EPoint := [
  ⟨38102973455857383083217578484408556833622354043481013391311736024976869900337,
    1514172559578212496981391342935391411386520649276975744812625577312668741408, 1,
    1968866686843775686290887716911932262809511996620402674886445561697688625696⟩,
  ⟨1209048020089982719844495683819082001893607537849579268870283236895088467617,
    741055009305076071530405773629080554579552753436343301823658144874985568375, 1,
    15968905772686977983881806756779650653743482463472703992587842753827928007808⟩,
  ⟨18133098019564239788358310742451132832366151394479185274106963769960092714259,
    38140518344246930107172351602243012658971871703492240663739840305739181883166, 1,
    31793063369366392018526176788109382310630045962242405242932126548956172998482⟩,
  ⟨5775091426336568960469984583760878007322866689994151809052428061204174118889,
    29887201476225371519323678298160551248870109346391839268198088354406816094603, 1,
    27610138471527652095047805863266559236671781287830322277167007153613044179337⟩,
  ⟨4593974641413661360409473136007336083343073546391870079652410347676384305242,
    11075416245848335612131624437244363233020121445069123431277843426699655125974, 1,
    46180378140173358074037150748107686689013038996030663289342867383737442333936⟩,
  ⟨25600645950501492469870665030046909514665779049338234751618227042770293855482,
    35018367549547244218384047246739589026720743680585178228367900785248202044204, 1,
    30251804630334814367060998104949534113929971576325398015737632751726147821373⟩,
  ⟨47381093868014146716290594308379387603422995808043370349152197064808697732503,
    33942614215534729019562244640587123042155197238234388559054699708318491129837, 1,
    29733664533670832881235137105144312207277965270958385188580806264761644448759⟩,
  ⟨24906052884562782063951679699354048255575956337820807662059523674932368870434,
    56568276242266121408027385930302597564871675885758994270648969197209785960531, 1,
    22678436875596921488721360362008534576005046720530484807479651869530626801395⟩,
  ⟨57435379460912946376016399473592937666208110907957819293947071147026428093578,
    7182409611272236782881027545209618023531837096266053376665803045542815763674, 1,
    30529205466975385714812549513861014452090337118143516453664072507857742619136⟩,
  ⟨42210236214376757400012817433438249353764277058741656671329805883396582814232,
    57348137657919450798024470676996840870809450785193425110629834980129468035513, 1,
    4851318572244298332421739462250673223859712373362991207024807491237296616580⟩,
  ⟨50600021921010654639393042398421493487175029585569794013338947997757371996000,
    47754901932658832944755602250322713204028621750591692777499867217041679199371, 1,
    27376756698200843765690827290800801238834946608456425462872448105829514681330⟩,
  ⟨50821319870416465254009388267125334163559310625584087921444311551619938114722,
    9088620056811087677562838423666372834336956655193749318058251486947572448962, 1,
    34039429566064901143807674786183064757872182003111052392416094123251993040947⟩,
  ⟨32196522848847565735856334276318051124252886737458105769209166262725053033083,
    7393130115855485575153821803620022305971326776213307269593337761874989725644, 1,
    7273124513803697534918587863455434012473808284279326211506590763110823892064⟩,
  ⟨24970461910561685087054410555168591907166478298815460063350897541212489434507,
    29592115857405817829899349542395762534440192398798334180602563381251866001145, 1,
    11901603101207129367230651712253093025653990235841865284177250832639181756525⟩,
  ⟨27245346486052156612556260664476378420790036658297676001899098524885355077359,
    48888870642372071672067603659241911365933576620840101126375508459414510565522, 1,
    15545211093823478259519848426341509837631865449937378866429812749573278421228⟩,
  ⟨19136258585028565136045765318475835467303635827791206963510287604802635715111,
    33344540989183453160057876432486571991820248849096960063935237253623116441578, 1,
    39130647447448359575415152102740760021714474026370544200484542053081677870612⟩,
  ⟨2051620019948060320139165007224790046062957563684725660075865905766801927018,
    26634626972702021852271593881089056221016381869788669620902290400855180194096, 1,
    19894888738178213129913547526001517380443060205018269077878681434722593234648⟩,
  ⟨43769380888977812413478673890986529989191732720426156771316652232317703571636,
    15820824354793376257897629437049119155765096347400266612126312061920858649044, 1,
    47097512067599334136795665118823558962609348753765723891269855090758647957253⟩,
  ⟨32590387035373356349237944783725042971516324481435734036565592641529718964239,
    38526204566884529523403748198692080481503772366256898154955286496417003279230, 1,
    56040147580430708190219150539956449488737479705341009427285075043759093999455⟩,
  ⟨25129151533353404139717554541472678604163033293344388344698639707261640377912,
    7806071603720859404100562229036778757080037506060353939615952230465254896782, 1,
    30642278562147956672060589358391948767090293007080571760426525253641881649321⟩,
  ⟨16286486140097290168902811228338717466195910788306539796964448105895915202654,
    45772195081924706455685187292739912601741495890583239795556426093338080240461, 1,
    52449296600063965434967230777518109382068697854831487065407736998035490950442⟩,
  ⟨51829224299071390883335050099115760084249950153969816694506997046362162191848,
    6651605539112656999127431679750059531742481947979094622174982403235321153992, 1,
    39815535776128225377794898250677858051366557585490520073268791694458887920481⟩,
  ⟨40991587245288082732481961079973618053627134133348505841086323543061099679442,
    54786666320687642240803361615502782680841653229296149388899422992008505743553, 1,
    30217736807719556409899840403442055930176532697763444559650439096076094821165⟩,
  ⟨6663732281608296555434424168258273947999213868485016269558252248117664606672,
    6501082717027354683185036463519938070371383290746362451621479643683527360462, 1,
    9852424021057370485040104570745127241315118416218558617766698835402355346132⟩,
  ⟨6619991358524042425167715374215849263046545656201214435076171013124526605093,
    26917309066133303918329708278348164207184189035529132635850906972016457089819, 1,
    27530807659849847188101740647952712239550753242740479481937681435443989417878⟩,
  ⟨38950448012588243946414608881956854172002510487947106773277630064696561000253,
    20658041943100844923121417719401408660730666510617263285533032361124278074110, 1,
    16663161996360062858153625760761480812968218641057109849249994123350900429631⟩,
  ⟨9066459199990487057566783512866495384906433960448006028148553394308414641443,
    30896325601573386383760025638744259970194842073224766324073607004825531174417, 1,
    21993803679950533918846258614949582093606395416468318806731025448221971467453⟩,
  ⟨4805487609028089188035435787062236463493697705595053320910102397573543327239,
    52100268478417557073660763168300267474345490988905135106510962443805890640349, 1,
    28179676587093604580207413415238535558171770568800705719686416741727396174884⟩,
  ⟨7102673334150108259178726547037373000787009374705025015842615748792126914856,
    7330345983442420568594491295455459520320216451616073053526714012768731256311, 1,
    11042889267454344061935913348048614884084565385590035041670758909591184205364⟩,
  ⟨55822355548589742572968034672029242082573405721138445160588022548204366508385,
    5752280606398123629287002606708976491085254470747366295725973811408999723219, 1,
    11405095286806212746082561279791123755827929300331566159837382933251892050835⟩,
  ⟨41079804648115120583834599536083991825194843599993026258504495042904843482206,
    46036014188062896365567660815856558088088452193850523146248322723406346107437, 1,
    16347427166443794545613954972616070713155454097069521999735829517309680712945⟩,
  ⟨28538487777225734781750022687361610666923096120871073386362359575201285846736,
    42058869948826943166496536455005522405465933040272726585026373998316642906109, 1,
    37932739139279857566417323688571887708278509777266873494282911390213117486916⟩]

def edBTable6 : List EPoint := [
  ⟨12565258097955692523285632157940150666933275725759344066053586092157591802509,
    44257820073692905562487031197842487206011716534849741297988353661581996935219, 1,
    11852089489538718050497412370591090809284399797098271593925664457585805673159⟩,
  ⟨3047606020786028284132832726733152544116871735530526064566846233255159694164,
    27659277246517583802849237030891922618695698372984029484026220602549726330981, 1,
    55463775194011380630519341519966098496461783503061503682191147761899681696535⟩,
  ⟨4540268506733343188936218306036274493398883371137067909932234450545784837367,
    26524790429314500794899586613374338447541369717354753326410262160257197201702, 1,
    27064340452433824408075231212490175399137716169065836278056371689335065722963⟩,
  ⟨3446437814019273288244656713869208063996426786897354522951255709425681080283,
    10094282458565215422345041182173095708589654183994461384883702800600720181143, 1,
    11143155699431656097381813171938507259196561272355038274301729945349223173674⟩,
  ⟨31939359117020197840802147548248613491855705164334866520018875597215644469837,
    5143524954389019660933003987155034079136925677085092596769778612924203694283, 1,
    6403637347758110792358721281939148440987037544781784329037235937049249763991⟩,
  ⟨40287080223966726636379405601042607244208169249453644315622817057698743805842,
    2817805398738675861775100282932373014831073238757293947729155265595857783030, 1,
    16896535972696290694442346550388194834063463093896298117354450319073060928398⟩,
  ⟨7553305694582539809762883705165465231023504042559318555394633901329085602098,
    8919006912349259804699804156249013133995630522635765796307871162848027888569, 1,
    30974554232594491015269751802783605471908262383138421327618871240366020596795⟩,
  ⟨12426881472312458653075942369925395774623352107372521499260018286178672901380,
    49090010569142864728247038097738436662825265898590795834497971162336534071909, 1,
    28836061512090055403991563689066859126217994443761002338397414708575998024826⟩,
  ⟨42790859572217979019765045101599520864945215556069219979855244263031107341291,
    36352885112432934246239472487536406048567025584781430504388550720719917751211, 1,
    34411454693318473194917641548200099393007202594856093974381551392238794648136⟩,
  ⟨20969485815323462495657636443776094956110890594908637836836433528529217248246,
    41653759202517735770752925280112261648826021528062044528162964546940673720459, 1,
    55253831749873871087481078525167879909605366566753564031377413485203641221260⟩,
  ⟨34567659236266541664425571443203715175544625629026504005119274300287719777486,
    17565007401280625947634034803255215739402290558920251353754636626495256586789, 1,
    53018687486913924840789528401932501241008537824354152536303007521217706974773⟩,
  ⟨40530823640519828920562877479558932586217792589610141719579413046844059582098,
    3600138672136364760753859297858104696578083065811637771482436480282220931554, 1,
    46057629397020633494619431862152748444775811169721530969241373426501460542600⟩,
  ⟨8052411590443323046063857505346512836591875031559018663112205767688612960753,
    30730945373776092329581923858915795181500895931833186559825761766308659256288, 1,
    1833063080836121857918467005019449316710477034792765225840694380847829945464⟩,
  ⟨2961593518592235479541660903798251731409879313709294688882094570300481008622,
    7326515770117864061036274403879279795380606332813631628549954406506753392075, 1,
    12528471409274219318603716564910802970762399327129097306235540442154724940626⟩,
  ⟨13873447291406652252520850563050388950183115206281801793080997331555935436935,
    1854536341069985929930670263463272452350782516792606069220708092094686818171, 1,
    29530352486196961875957082058341315079224681773414139790348678087260553391957⟩,
  ⟨35683870257730746803867720629304493664502060430583742471203159589065530443926,
    50775043548393519406558354306624403249930347495645611593884363718324007436892, 1,
    31325412607724229065847913080797065203441899641941716066397851724347086488217⟩,
  ⟨23139927176256150527684160377093795868379875726157297905712336211350061316827,
    19787356133392787962174279663620312865334398103860028544644614368198408192057, 1,
    37492465648051618533825547835386104286162333036525561762972543216307660676529⟩,
  ⟨24549719963007680681928692870584034485287122306592054951194445691864392705843,
    16673777245026167737749145194769093277297849195567740502938961632043379444908, 1,
    29906173079972555615963327355241415527690010128450560076087468576980258229034⟩,
  ⟨27160183473041357485053081342659997600272991901793366107032838553396221948572,
    52878466045321014791225548726791844262209165286675200816611206489504571768111, 1,
    26362326195737526034043432830019985151828598431779097743765684224714008811854⟩,
  ⟨37856120072487993103046293427528509747584933905590469886836303938310252816138,
    41907619650366185306472763840058597947456791674841048099205789966501368167173, 1,
    34782882161546596556289583216458658636674919096893127205009667759303057339251⟩,
  ⟨5271310448468760027556241606065118981650618947678734090383451681402688537496,
    38322921322667682108538724210518522316510401542007702908860411594861215552289, 1,
    39468282198834463778524801479840999744700590752146487267361981086911527661152⟩,
  ⟨49943610039541093206875981236688209328479426280387528019284490530711483831624,
    22141598509810852937354851269361079994039513123706616639082971256963153447234, 1,
    44022579299365371581288998112177665716309785449622732210733770316457329829799⟩,
  ⟨33196521229313941830249722482067475324360707345569650493452339927499268845388,
    57620529990923425496822897524864886162747522913277226656932336939082540812362, 1,
    14478468093514577001522460650505858573448310389825605161919372108792630751672⟩,
  ⟨3328635754068009989813757321380006922150153942181725940627502310721359276000,
    30633975421496655725188080288034459541252284555977590204375606926334249901953, 1,
    5751469805163719055592430925753910362722848919677858903558189916493158353842⟩,
  ⟨7443719846974079666748089904485291504428968724490373092275150647989319087692,
    18820240084665614733582602265075526958985974540311071192454258305129583587362, 1,
    51927089703120089390827029690929960398159411892872994731820667504885558299135⟩,
  ⟨28219671911848323914904753671285805609149653412232530035840302836498670222899,
    24243187521602053364399249404394453944851707379755522787610621440283236931192, 1,
    51651609555056648992582366421136863805563130455066406645526471459425853146088⟩,
  ⟨22555568212557064866549123416795664464742575236779214520260833312041161149073,
    15429182496115485427702486987740166287248088253738720601278823588595062442038, 1,
    36393382297814492117996974463848881225624462840981505770714647589211345724374⟩,
  ⟨48465201835125509424074824076110166267881717002834000111922161141573805234110,
    28720162598540223712866654973517910055504279124955858949566202107396512574256, 1,
    57307181711103484913978958344670838160397302590097390606583589617596574352203⟩,
  ⟨17155138369190359334006416480269544641767801292657570816851467463390508879157,
    10677716440341152328856367122445213787758363208297061562948094669842407700807, 1,
    6441667969767514079238979234215651644011477894250249685984006135606543021195⟩,
  ⟨51351673373636391428746479467253849059137450672094236128227382652557641038124,
    56040144155464555707113464745187811884759736467448172523777282885726278023285, 1,
    43767312352174798773614192352706049483361140439934948031009451284349750086966⟩,
  ⟨53760055897067400489665773195509833263050845969793673012618552403684336417767,
    16610320088175688937118739009887493209383246425369877012257924127314641028782, 1,
    14686755876198801630145820114422228812889972456288368912160996886908933530328⟩,
  ⟨27608649448189701505561374337332403029512581159506899308878650418609239647941,
    31641816612049524070661261539855825285184703523398187758179159823646441236948, 1,
    31524968597041956859897486050007122329756134802291268628123721527311368476728⟩]

def edBTable7 : List EPoint := [
  ⟨53304469795825273299854714085922658079948122322668647297293394441464881470527,
    47685002571541626611705376599527786833846649618814369018069081206399572486957, 1,
    47247652363584691408596820277011469711095476638227716151186967762488710644228⟩,
  ⟨49335455695109847646258506237776437624191255190322055555664492783643150757396,
    6043709471781543356542662397172180212912657197599678519394549586025696509326, 1,
    22647078095078935588419817698139052215153319286150950538833928865994727336004⟩,
  ⟨10292473728683899298769518133712229514364978943006840381772620088710283646356,
    16232995973344971991076543188339090011424146332261920080126280100176095956790, 1,
    18871375051439474680426824153702851465431971811652007466699300552969132877864⟩,
  ⟨46542636374233588321296274916805689752925781691802685838494319614443447893538,
    37680198816660712630720534333916497698396966988731367964888839919405670002820, 1,
    55319867700761482854448149533255381014457101214407430190199094302983764106133⟩,
  ⟨42325076515927651040298914234932319328284059328172947575825849578929982230570,
    7506189132626467707386906487041504130293433834887253170743372147700421840746, 1,
    11746662992052972613286156295817649923095282227520298962771484086065424689287⟩,
  ⟨27154124536272927234749177907867679325227932018272859810851002835563686910883,
    21998530783282445218036708920959790427168667723986204987927738276000765743914, 1,
    2640076058282066989706906596988804045554362654027709026376573680517659927466⟩,
  ⟨18022249884322496132170074528403534115797990185385762405600535577406879558578,
    19280785440095214674058131166453244763616334119623032868274931819902898716320, 1,
    40598806439794029480022376201081030925278401301418068774763392173810995537752⟩,
  ⟨31871847105500275871397921958755873819092277626548542473063580591271100812184,
    56782728861375183290724614156105625406297254819725485821455581178794943457780, 1,
    5770097259276330113459187573288978543530187315335048613960058762796367389827⟩,
  ⟨52950684007977523901779353208387991814777872260199194074012000906152749035015,
    43559760554699348651880759040523650653531354814484772470659734117943798594773, 1,
    27049330572775041533432068825505239039963816317940535506022702151290148666415⟩,
  ⟨46385652855500771636753260999836277747743406474930236011679867457017085007879,
    55364093025069781998473502036475343928137913399732237121888294231795325016835, 1,
    43080019235192271044704688664225623620248662551896075136028667800902996657496⟩,
  ⟨36428449043541116458066247112177091498600998149203217850480907211937250140943,
    36543210237652193395623530047650568117985219229087354680478677640723853203595, 1,
    26125719043673408447946722554842580910799881352484915861538736212504399478291⟩,
  ⟨3338788681088490089496706800856581168564865192186593791861246044426154499010,
    26426849265173531444151938502017026159660565627967432257550190620362096502448, 1,
    42256988968718436995342278459872412649336245264038301781693186965948181616405⟩,
  ⟨17002187804875921720304192466701158229705267117861257819695638400388686076966,
    47324389027998325546431648061001491781246524303560821215242721294216395326206, 1,
    2400397453782408342436441500400808141949271153985413673262277849983910889265⟩,
  ⟨16548854152124491271698308270104353564016661601189986921257073523187955141925,
    1158824557306950469098004232124593577743050445804659965063922149468212665445, 1,
    50737320501208248501906479480824562276296949466070850984879318872981630352858⟩,
  ⟨2412212813161792837133309851809793086149586158888041717660011275378501704125,
    39898564843279879327893182619708313073007005584244547895676433526578881074013, 1,
    16181089697288971035300518288765293572588092771924136171646404803604543224422⟩,
  ⟨6297418815011565153558491920390814990122628554969454185062332121561120551959,
    33009215285320020910422854434933968797698327064144614056402032867881452207213, 1,
    41883922197976815245754166625263878359727918277549086540078457790349703554729⟩,
  ⟨18426840258637972718670195488655680988537170743174575101534676457073619584903,
    38527585858109498490175714924437073855189699226237652996406428558470468189180, 1,
    49192919210657974925942560458328182177623017430917591554969689234155051080676⟩,
  ⟨6687503405520459644456484323979662585006247359499822807198278786053106819366,
    28001418022695693931926419495778063831494905019695761058838216407163187565011, 1,
    9354073337922751354146120774298764868374270373372321156112087655033660064041⟩,
  ⟨25894384773347189353760429139709265821823299352385748702971207827242963601893,
    35338761534202014958694551669959368924781518118460059914713476833904461177038, 1,
    36813107083849184890312781224675222219385683033687294761574647040397577560033⟩,
  ⟨13965057334485654557519631244966956429368157253782516918853568135695248094185,
    20924624872955149049223491465944811425899329735169397671855552630631338061304, 1,
    672288438331029722902303542201606842867113017487774371147933080931643437440⟩,
  ⟨40318084854896432497838617212393601390110345789501606463225148147119291643003,
    27503331955131306839664085179093282365638126517858679041313254401675605642016, 1,
    36764916078428687052046044834401081261994820607941704398868625778847083287986⟩,
  ⟨34154780189500812416297672002800597523847747906621078471233781199647323187738,
    9144038063479072042481831443200573268429989309329561475007795234649748547628, 1,
    35745209904913325972406654944369591248197957933407159777160854773203326661292⟩,
  ⟨11839377252169370173458082485821503161688071731673988644807436218313351417281,
    29069456758134827294702768545306374262760185847646054083907829281116245110837, 1,
    5285368154404118527992854959105493924238150079175788482025026064393295807181⟩,
  ⟨16413100402534548574789275325187919332620685948991744534619801776946161276609,
    26914327229360814349254992450749418391547764873949295145255805215324042208053, 1,
    34223699416879628282459034423412723406648225692915470869042408965219245120556⟩,
  ⟨39889996776461429953017745748202868941628445010936749699607514235758480168479,
    46963357182225939507199438676569248839185976608832841466490839922106986386462, 1,
    56449159845156832713850161799398571731738147939289379270626210887147816372235⟩,
  ⟨11566782627862055775429313600993990688467921633183155960530716761312189810219,
    37430295727060303617524367747744652011782083356822721578098901730297238387561, 1,
    45534431982461101841937319876160014070997449792881885204530477877817643628528⟩,
  ⟨3748876099198768087790678572316503350064730796356389551858545938907270449428,
    4503449783293907748412604001874743213137248331311866541393166470749118979561, 1,
    56748446604653410529142252932481766033560892649818574580874258847577200107255⟩,
  ⟨1750506308444799747800933775664982980357785786584986040908968665256412979431,
    9761163806862067634610823247705647930479910055583866855164649084372695602453, 1,
    51038068892714026516888079640670590898767584339582049932201606041728640155721⟩,
  ⟨47967324138657855517820679197637950548356338916984505359296923382334386852844,
    43205910223094787497847345404613933344398071253256974202540261423648956236472, 1,
    37669219669635495739555569639893240024895134038554140245712167079094047994941⟩,
  ⟨23777695994937931970277599983343371174213181638621402760092189926568384103544,
    4312424053162116428327524954705839421069982376392060810108862845702987279404, 1,
    19864435650941011734502771979865520489363348498138149661344544879332292324411⟩,
  ⟨2429463388156782485959806084459342654505704780652802972241802018079577638429,
    36667850773860208174295251629551133715398979910456561926121193844993604140649, 1,
    8289615886423279205662993227449695462711747987171082334841186092136468243630⟩,
  ⟨8122638290800733895359546262309612691037449520948742710951030284817056587628,
    29646827574460030593281795080347883881840372422686874306571330951588313582446, 1,
    825500616195764924997328612472311625887029161367006480962006557513789757393⟩]

def edBTable : List EPoint :=
  edBTable0 ++ edBTable1 ++ edBTable2 ++ edBTable3 ++
    edBTable4 ++ edBTable5 ++ edBTable6 ++ edBTable7

/-- Projective check that `q` (an affine entry, z = 1) is the double of
`p1`. -/
def edDoubleMatches (p1 q : EPoint) : Bool :=
  let doubled := pAdd p1 p1
  q.z == 1 && q.t == q.x * q.y % edP &&
    doubled.x == q.x * doubled.z % edP && doubled.y == q.y * doubled.z % edP

/-- Checker that every table entry doubles to the next one. -/
def edBTableOkAux : List EPoint → Bool
  | p1 :: q :: rest => edDoubleMatches p1 q && edBTableOkAux (q :: rest)
  | _ => true

/-- The table entries of `edBTable` at the set bits of `k`
(least-significant bit first; fuel-bounded). -/
def selectPointsAux : Nat → Nat → List EPoint → List EPoint
  | 0, _, _ => []
  | _, _, [] => []
  | fuel + 1, k, p1 :: rest =>
    if k % 2 = 1 then p1 :: selectPointsAux fuel (k / 2) rest
    else selectPointsAux fuel (k / 2) rest

/-- One pairwise-addition pass over a list of points. -/
def pairUp : List EPoint → List EPoint
  | a :: b :: rest => pAdd a b :: pairUp rest
  | l => l

/-- Balanced (logarithmic-depth) sum of a list of points. -/
def sumPoints : Nat → List EPoint → EPoint
  | _, [] => pZero
  | 0, p1 :: _ => p1
  | _ + 1, [p1] => p1
  | fuel + 1, l => sumPoints fuel (pairUp l)

/-- Base-point scalar multiplication k·B through the doubling table: the sum
of the table entries at the set bits of k. Mathematically this is the same
group element as `pMulAux 256 k edB` (see the anchor theorems below), but
its evaluation is balanced instead of a 256-deep dependency chain. -/
def scalarBaseMul (k : Nat) : EPoint := sumPoints 16 (selectPointsAux 256 k edBTable)

/-- Binary modular exponentiation mod p (fuel-bounded). -/
def fpowAux : Nat → Nat → Nat → Nat
  | 0, _, _ => 1 % edP
  | fuel + 1, b, e =>
    if e = 0 then 1
    else
      let r := fpowAux fuel (b * b % edP) (e / 2)
      if e % 2 = 1 then b * r % edP else r

/-- Field inverse mod p by Fermat. -/
def fInv (x : Nat) : Nat := fpowAux 256 (x % edP) (edP - 2)

/-- Compress a point: 32 little-endian bytes of y with the parity of x in
the top bit (tweetnacl `pack`). -/
def packPoint (pt : EPoint) : List Nat :=
  let zi := fInv pt.z
  let x := pt.x * zi % edP
  let y := pt.y * zi % edP
  natToLeBytes 32 (y + x % 2 * edSignBit)

/-- Clamp the last byte of an Ed25519 scalar (bit 255 cleared, bit 254 set). -/
def clampLast : List Nat → List Nat
  | [] => []
  | [x] => [(x &&& 127) ||| 64]
  | x :: rest => x :: clampLast rest

/-- Ed25519 scalar clamping of a 32-byte string (tweetnacl: `d[0] &= 248;
d[31] &= 127; d[31] |= 64`). -/
def edClamp : List Nat → List Nat
  | [] => []
  | d0 :: rest => (d0 &&& 248) :: clampLast rest

/-- Model of the external tweetnacl `nacl.sign.detached`: deterministic
Ed25519 signing of `message` with a 64-byte secret key (RFC 8032 flow as
implemented by `crypto_sign`): clamped scalar from the SHA-512 of the seed,
per-message scalar r from the hash half and message, R = rB, challenge k,
S = r + k·a mod L. -/
def edSignDetached (message sk : List Nat) : List Nat :=
  let d := sha512 (sk.take 32)
  let a := leBytesToNat (edClamp (d.take 32))
  let pfx := d.drop 32
  let r := leBytesToNat (sha512 (pfx ++ message)) % edL
  let bigR := packPoint (scalarBaseMul r)
  let pk := sk.drop 32
  let k := leBytesToNat (sha512 (bigR ++ pk ++ message)) % edL
  bigR ++ natToLeBytes 32 ((r + k * a) % edL)

/-- Decompress the negation of a public-key point (tweetnacl `unpackneg`):
recover x from y by exponentiation, fix the sqrt(-1) factor, fail if x is
not a square root, and negate so that verification can add k·(-A). -/
def unpackNeg (pkb : List Nat) : Option EPoint :=
  let y := leBytesToNat pkb % edSignBit % edP
  let y2 := y * y % edP
  let num := (y2 + edP - 1) % edP
  let den := (edD * y2 % edP + 1) % edP
  let den2 := den * den % edP
  let den4 := den2 * den2 % edP
  let den6 := den4 * den2 % edP
  let t0 := fpowAux 256 (den6 * num % edP * den % edP) ((edP - 5) / 8)
  let x0 := t0 * num % edP * den % edP * den % edP * den % edP
  let x1 := if x0 * x0 % edP * den % edP = num then x0 else x0 * edI % edP
  if x1 * x1 % edP * den % edP ≠ num then none
  else
    let x2 := if x1 % 2 = pkb.getD 31 0 >>> 7 then (edP - x1) % edP else x1
    some ⟨x2, y, 1, x2 * y % edP⟩

/-- Model of the external tweetnacl `nacl.sign.detached.verify`
(`crypto_sign_open` on a detached signature): check that
pack(k·(-A) + S·B) equals the R half of the signature. -/
def edVerifyDetached (message sig pk : List Nat) : Bool :=
  if sig.length = 64 ∧ pk.length = 32 then
    match unpackNeg pk with
    | none => false
    | some q =>
      let k := leBytesToNat (sha512 (sig.take 32 ++ pk ++ message)) % edL
      let s := leBytesToNat (sig.drop 32)
      packPoint (pAdd (pMulAux 256 k q) (scalarBaseMul s)) == sig.take 32
  else false

/-- Model of the external tweetnacl `nacl.sign.keyPair.fromSecretKey`:
requires a 64-byte secret key and returns its second half as the stored
public key, alongside the secret key itself. -/
def naclKeyPairFromSecretKey (sk : List Nat) : Option SignKeyPairRec :=
  if sk.length = 64 then some ⟨sk.drop 32, sk⟩ else none

/-- The concrete tweetnacl signature-primitive bundle. -/
def tweetnaclSign : SignPrims :=
  ⟨naclKeyPairFromSecretKey, edSignDetached, edVerifyDetached⟩

/-- Contract of the external box/conversion collaborators assumed by the
spec (sections 1 and 6): a box sealed to the ed2curve-converted public key
of an Ed25519 key pair, under a fresh ephemeral box key pair, opens with the
ephemeral public key and the converted matching Ed25519 secret key. -/
def BoxRoundTrip (S : SignPrims) (B : BoxPrims) : Prop :=
  ∀ (m nonce : List Nat) (seed : Nat) (sk : List Nat) (skp : SignKeyPairRec),
    S.keyPairFromSecretKey sk = some skp →
    B.boxOpen (B.box m nonce (B.convertPublicKey skp.publicKey) (B.keyPair seed).secretKey)
      nonce (B.keyPair seed).publicKey (B.convertSecretKey sk) = some m

/-- Contract of the box collaborator: ephemeral Curve25519 public keys are
32 bytes. -/
def BoxEphKeyLen (B : BoxPrims) : Prop :=
  ∀ seed : Nat, (B.keyPair seed).publicKey.length = 32

/-- Contract of the box collaborator (authentication): opening a box that
was sealed to one Ed25519 identity with the converted secret key of a
different identity fails. -/
def BoxAuthMismatch (S : SignPrims) (B : BoxPrims) : Prop :=
  ∀ (m nonce : List Nat) (seed : Nat) (skR skD : List Nat) (kpR : SignKeyPairRec),
    S.keyPairFromSecretKey skR = some kpR →
    B.convertSecretKey skD ≠ B.convertSecretKey skR →
    B.boxOpen (B.box m nonce (B.convertPublicKey kpR.publicKey) (B.keyPair seed).secretKey)
      nonce (B.keyPair seed).publicKey (B.convertSecretKey skD) = none

/-- Contract of the signature collaborator: a detached signature verifies
under the public key derived from the signing secret key. -/
def SignVerifies (S : SignPrims) : Prop :=
  ∀ (m sk : List Nat) (skp : SignKeyPairRec),
    S.keyPairFromSecretKey sk = some skp →
    S.detachedVerify m (S.detached m sk) skp.publicKey = true

def listSum : List Nat → Nat
  | [] => 0
  | b :: rest => b + listSum rest

/-- A small concrete signature primitive satisfying `SignVerifies`, used to
exhibit the generic theorems at a computable instance: the "signature"
records the message sum and the public half of the secret key. -/
def toySign : SignPrims where
  keyPairFromSecretKey sk := if sk.length = 64 then some ⟨sk.drop 32, sk⟩ else none
  detached m sk := listSum m :: sk.drop 32
  detachedVerify m sig pk := sig == listSum m :: pk

/-- A small concrete box primitive satisfying the box contracts, used to
exhibit the generic theorems at a computable instance: Diffie-Hellman is
multiplication of key sums, sealing tags the message with the shared key
and the nonce. -/
def toyBox : BoxPrims where
  keyPair seed := ⟨(seed + 1) :: List.replicate 31 0, [seed + 1]⟩
  box m nonce pk sk := listSum pk * listSum sk :: (nonce ++ m)
  boxOpen c nonce pk sk :=
    match c with
    | [] => none
    | k :: rest =>
      if k = listSum pk * listSum sk ∧ rest.take nonce.length = nonce
      then some (rest.drop nonce.length) else none
  convertPublicKey p := p
  convertSecretKey sk := [listSum (sk.drop 32)]

/-- A valid 64-byte toy secret key in encoded form. -/
def toySecretA : List Char := base_encode (List.replicate 64 2)

/-- A second, distinct valid toy secret key in encoded form. -/
def toySecretB : List Char := base_encode (List.replicate 64 3)

/-- The key pair the embedding constructs from `toySecretA`. -/
def toyKpA : KeyPairEd25519 := ⟨⟨KeyType.ED25519, List.replicate 32 2⟩, toySecretA⟩

/-- The key pair the embedding constructs from `toySecretB`. -/
def toyKpB : KeyPairEd25519 := ⟨⟨KeyType.ED25519, List.replicate 32 3⟩, toySecretB⟩

/-- The named secret key of spec section 8, property 1. -/
def c4secret : List Char :=
  "26x56YPzPDro5t2smQfGcYAPy3j7R2jB2NUb7xKbAGK23B6x4WNQPh3twb6oDksFov5X8ts5CtntUNbpQpAKFdbR".toList

/-- The key pair the embedding constructs from `c4secret` (public key =
second half of the decoded 64-byte secret, per the tweetnacl primitive). -/
def c4kp : KeyPairEd25519 :=
  ⟨⟨KeyType.ED25519, ((base_decode c4secret).getD []).drop 32⟩, c4secret⟩

/-- The message of spec section 8, property 1: sha256 of the ASCII bytes of
"message". -/
def c4msg : List Nat := sha256 ("message".toList.map Char.toNat)

/-- A heap of byte buffers: JS `Uint8Array`s are mutable references,
modelled as addresses into a store; `next` is the next fresh address (every
buffer the caller can hold lives at an address below `next`). -/
structure BufStore where
  data : Nat → List Nat
  next : Nat

/-- An external writer mutates the buffer at address `a`. -/
def BufStore.write (st : BufStore) (a : Nat) (bs : List Nat) : BufStore :=
  ⟨fun x => if x = a then bs else st.data x, st.next⟩

/-- A `PublicKey` whose `data` field is a buffer reference, as in the JS
runtime. -/
structure PublicKeyRef where
  keyType : KeyType
  dataAddr : Nat

/-- Modelled from the spec: the `Assignable` base class (`src/utils/enums.ts`)
through which `new PublicKey({keyType, data})` stores its fields is not under
`src/`; spec sections 5 and 9 require construction to "copy all
externally-supplied byte buffers into owned storage". Construction from a
caller's raw buffer therefore allocates a fresh buffer and copies the
caller's bytes into it. -/
def PublicKey.constructRef (st : BufStore) (t : KeyType) (callerBuf : Nat) :
    BufStore × PublicKeyRef :=
  (⟨fun x => if x = st.next then st.data callerBuf else st.data x, st.next + 1⟩,
    ⟨t, st.next⟩)

/-- Read a `PublicKeyRef`'s key bytes from the store. -/
def PublicKeyRef.readData (st : BufStore) (pk : PublicKeyRef) : List Nat :=
  st.data pk.dataAddr

/-- Modelled from the spec: the `KeyPairEd25519` constructor in the `BufStore`
model. Its externally supplied input is an (immutable) string; the derived
public-key bytes land in a freshly allocated buffer. -/
def KeyPairEd25519.constructRef (S : SignPrims) (st : BufStore) (secretKey : List Char) :
    Except KpError (BufStore × PublicKeyRef × List Char) :=
  match base_decode secretKey with
  | none => .error .invalidEncoding
  | some skBytes =>
    match S.keyPairFromSecretKey skBytes with
    | none => .error .badSecretKeySize
    | some keyPair =>
      .ok (⟨fun x => if x = st.next then keyPair.publicKey else st.data x, st.next + 1⟩,
        ⟨KeyType.ED25519, st.next⟩, secretKey)

/-- Decidable equality for `Except`, so concrete runs of the fallible
embedded operations can be checked by evaluation. -/
instance exceptDecEq {ε α : Type} [DecidableEq ε] [DecidableEq α] :
    DecidableEq (Except ε α) := fun x y =>
  match x, y with
  | .error a, .error b =>
    if h : a = b then isTrue (by rw [h]) else isFalse (by intro he; cases he; exact h rfl)
  | .error _, .ok _ => isFalse (by intro he; cases he)
  | .ok _, .error _ => isFalse (by intro he; cases he)
  | .ok a, .ok b =>
    if h : a = b then isTrue (by rw [h]) else isFalse (by intro he; cases he; exact h rfl)

theorem splitColon_ne_nil (s : List Char) : splitColon s ≠ [] := by
  induction s with
  | nil => simp [splitColon]
  | cons c rest ih =>
    simp only [splitColon]
    split
    · simp
    · cases h : splitColon rest with
      | nil => simp
      | cons p ps => simp

theorem splitColon_of_not_mem {s : List Char} (h : ':' ∉ s) : splitColon s = [s] := by
  induction s with
  | nil => rfl
  | cons c rest ih =>
    simp only [List.mem_cons, not_or] at h
    obtain ⟨h1, h2⟩ := h
    simp only [splitColon]
    rw [if_neg (fun hc => h1 hc.symm), ih h2]

theorem splitColon_append {a : List Char} (h : ':' ∉ a) (b : List Char) :
    splitColon (a ++ ':' :: b) = a :: splitColon b := by
  induction a with
  | nil => simp [splitColon]
  | cons c rest ih =>
    simp only [List.mem_cons, not_or] at h
    obtain ⟨h1, h2⟩ := h
    simp only [List.cons_append, splitColon, List.append_eq]
    rw [if_neg (fun hc => h1 hc.symm), ih h2]

theorem splitColon_length (s : List Char) : (splitColon s).length = s.count ':' + 1 := by
  induction s with
  | nil => simp [splitColon]
  | cons c rest ih =>
    simp only [splitColon]
    by_cases hc : c = ':'
    · subst hc
      simp [List.count_cons, ih]
    · rw [if_neg hc]
      cases h : splitColon rest with
      | nil => exact absurd h (splitColon_ne_nil rest)
      | cons p ps =>
        rw [h] at ih
        simp only [List.length_cons] at ih ⊢
        have : rest.count ':' = (c :: rest).count ':' := by
          simp [List.count_cons, hc]
        omega

theorem b58ValueAux_chars {s : List Char} {acc v : Nat}
    (h : b58ValueAux acc s = some v) : ∀ c ∈ s, b58Digit c ≠ none := by
  induction s generalizing acc with
  | nil => simp
  | cons c rest ih =>
    intro x hx
    simp only [b58ValueAux] at h
    cases hd : b58Digit c with
    | none => rw [hd] at h; simp at h
    | some d =>
      rw [hd] at h
      rcases List.mem_cons.mp hx with hx | hx
      · subst hx; simp [hd]
      · exact ih h x hx

theorem base_decode_no_colon {s : List Char} {bs : List Nat}
    (h : base_decode s = some bs) : ':' ∉ s := by
  intro hm
  unfold base_decode at h
  cases hv : b58ValueAux 0 s with
  | none => rw [hv] at h; simp at h
  | some v => exact b58ValueAux_chars hv ':' hm (by decide)

theorem base_decode_colon_count {s : List Char} {bs : List Nat}
    (h : base_decode s = some bs) : s.count ':' = 0 :=
  List.count_eq_zero.mpr (base_decode_no_colon h)

theorem uset_assemble (a b c : List Nat) :
    uset (uset (uset (List.replicate (b.length + c.length + a.length) 0) a 0)
      b a.length) c (a.length + b.length) = a ++ b ++ c := by
  unfold uset
  have h1 : (List.replicate (b.length + c.length + a.length) 0).take 0 ++ a ++
      (List.replicate (b.length + c.length + a.length) 0).drop (0 + a.length) =
      a ++ List.replicate (b.length + c.length) 0 := by
    simp [List.drop_replicate]
  rw [h1]
  have h2 : (a ++ List.replicate (b.length + c.length) 0).take a.length = a :=
    List.take_left a _
  have h3 : (a ++ List.replicate (b.length + c.length) 0).drop (a.length + b.length) =
      List.replicate c.length 0 := by
    rw [List.drop_append b.length, List.drop_replicate]
    congr 1
    omega
  rw [h2, h3]
  have h4 : (a ++ b ++ List.replicate c.length 0).take (a.length + b.length) = a ++ b := by
    rw [List.take_left' (by simp)]
  have h5 : (a ++ b ++ List.replicate c.length 0).drop (a.length + b.length + c.length) = [] := by
    apply List.drop_eq_nil_of_le
    simp
    omega
  rw [h4, h5]
  simp

theorem uslice_first {a : List Nat} (b c : List Nat) (ha : a.length = 32) :
    uslice (a ++ b ++ c) 0 32 = a := by
  unfold uslice
  rw [List.append_assoc, List.take_left' ha, List.drop_zero]

theorem uslice_mid {a b : List Nat} (c : List Nat) (ha : a.length = 32) (hb : b.length = 24) :
    uslice (a ++ b ++ c) 32 56 = b := by
  unfold uslice
  rw [List.append_assoc]
  have h56 : (56 : Nat) = a.length + 24 := by omega
  rw [h56, List.take_append, List.take_left' hb, List.drop_left' ha]

theorem uslice_last {a b : List Nat} (c : List Nat) (ha : a.length = 32) (hb : b.length = 24) :
    usliceFrom (a ++ b ++ c) 56 = c := by
  unfold usliceFrom
  rw [List.append_assoc]
  have h56 : (56 : Nat) = a.length + 24 := by omega
  rw [h56, List.drop_append, List.drop_left' hb]

theorem listSum_replicate_zero (n : Nat) : listSum (List.replicate n 0) = 0 := by
  induction n with
  | zero => rfl
  | succ k ih => simp [List.replicate_succ, listSum, ih]

theorem toySign_fromSecretKey {sk : List Nat} {skp : SignKeyPairRec}
    (h : toySign.keyPairFromSecretKey sk = some skp) :
    sk.length = 64 ∧ skp = ⟨sk.drop 32, sk⟩ := by
  simp only [toySign] at h
  by_cases hl : sk.length = 64
  · rw [if_pos hl] at h
    injection h with h'
    exact ⟨hl, h'.symm⟩
  · rw [if_neg hl] at h
    simp at h

theorem toySign_verifies : SignVerifies toySign := by
  intro m sk skp h
  obtain ⟨-, hskp⟩ := toySign_fromSecretKey h
  subst hskp
  simp [toySign]

theorem toyBox_len : BoxEphKeyLen toyBox := by
  intro seed
  simp [toyBox]

theorem toyBox_roundtrip : BoxRoundTrip toySign toyBox := by
  intro m nonce seed sk skp h
  obtain ⟨-, hskp⟩ := toySign_fromSecretKey h
  subst hskp
  simp only [toyBox]
  simp [listSum, listSum_replicate_zero, Nat.mul_comm, List.take_left, List.drop_left]

theorem toyBox_mismatch : BoxAuthMismatch toySign toyBox := by
  intro m nonce seed skR skD kpR h hne
  obtain ⟨-, hskp⟩ := toySign_fromSecretKey h
  subst hskp
  have hsum : listSum (skD.drop 32) ≠ listSum (skR.drop 32) := by
    intro he
    exact hne (by simp only [toyBox]; rw [he])
  simp only [toyBox]
  split
  · rename_i hcond
    exfalso
    obtain ⟨hk, -⟩ := hcond
    simp only [listSum, listSum_replicate_zero, Nat.add_zero, Nat.zero_add] at hk
    rw [Nat.mul_comm (listSum (List.drop 32 skR)) (seed + 1)] at hk
    exact hsum (Nat.eq_of_mul_eq_mul_left (Nat.succ_pos seed) hk).symm
  · rfl

theorem create_elim {S : SignPrims} {s : List Char} {kp : KeyPairEd25519}
    (h : KeyPairEd25519.create S s = .ok kp) :
    ∃ skB skp, base_decode s = some skB ∧ S.keyPairFromSecretKey skB = some skp ∧
      kp = ⟨⟨KeyType.ED25519, skp.publicKey⟩, s⟩ := by
  unfold KeyPairEd25519.create at h
  split at h
  · simp at h
  · rename_i skB hd
    split at h
    · simp at h
    · rename_i skp hk
      injection h with h'
      exact ⟨skB, skp, hd, hk, h'.symm⟩

theorem encryptMessage_eq (B : BoxPrims) (kp : KeyPairEd25519) (m : List Nat)
    (rpk : PublicKey) (seed : Nat) (nonce : List Nat) :
    KeyPairEd25519.encryptMessage B kp m rpk seed nonce =
      (B.keyPair seed).publicKey ++ nonce ++
        B.box m nonce (B.convertPublicKey rpk.data) (B.keyPair seed).secretKey := by
  simp only [KeyPairEd25519.encryptMessage]
  exact uset_assemble _ _ _

theorem decryptMessage_eq (B : BoxPrims) (kp : KeyPairEd25519) {skB : List Nat}
    (hd : base_decode kp.secretKey = some skB) (f : List Nat) :
    KeyPairEd25519.decryptMessage B kp f =
      .ok (B.boxOpen (usliceFrom f 56) (uslice f 32 56) (uslice f 0 32)
        (B.convertSecretKey skB)) := by
  unfold KeyPairEd25519.decryptMessage
  rw [hd]

/-- C1: for every sender key pair, every receiver key pair constructed from
a valid encoded secret, every plaintext, and every ephemeral seed and
24-byte nonce, `receiver.decryptMessage (sender.encryptMessage m
receiver.getPublicKey)` returns the plaintext, for any primitive bundles
satisfying the box collaborator contracts. The sender is arbitrary — the
self-send case `sender = receiver` is an instance. -/
theorem encrypt_decrypt_roundtrip (S : SignPrims) (B : BoxPrims)
    (hRT : BoxRoundTrip S B) (hLen : BoxEphKeyLen B)
    (sender : KeyPairEd25519) (rsec : List Char) (receiver : KeyPairEd25519)
    (hr : KeyPairEd25519.create S rsec = .ok receiver)
    (m : List Nat) (seed : Nat) (nonce : List Nat) (hn : nonce.length = 24) :
    KeyPairEd25519.decryptMessage B receiver
      (KeyPairEd25519.encryptMessage B sender m
        (KeyPairEd25519.getPublicKey receiver) seed nonce) = .ok (some m) := by
  obtain ⟨skB, skp, hd, hk, hkp⟩ := create_elim hr
  subst hkp
  rw [encryptMessage_eq]
  rw [decryptMessage_eq B _ hd]
  simp only [KeyPairEd25519.getPublicKey]
  rw [uslice_first nonce _ (hLen seed), uslice_mid _ (hLen seed) hn,
    uslice_last _ (hLen seed) hn]
  exact congrArg Except.ok (hRT m nonce seed skB skp hk)

set_option maxRecDepth 100000 in
/-- Witness for C1 at the toy primitives: a self-send with a concrete key
pair, plaintext, seed and nonce. -/
theorem encrypt_decrypt_roundtrip_witness :
    KeyPairEd25519.create toySign toySecretA = .ok toyKpA ∧
    KeyPairEd25519.decryptMessage toyBox toyKpA
      (KeyPairEd25519.encryptMessage toyBox toyKpA [1, 2, 3]
        (KeyPairEd25519.getPublicKey toyKpA) 7 (List.replicate 24 5)) = .ok (some [1, 2, 3]) :=
  ⟨by decide, encrypt_decrypt_roundtrip toySign toyBox toyBox_roundtrip toyBox_len
    toyKpA toySecretA toyKpA (by decide) [1, 2, 3] 7 (List.replicate 24 5) (by decide)⟩

/-- C2: decryption that should fail is a soft failure. For any primitive
bundles satisfying the box contracts: (1) decrypting an envelope encrypted
for receiver `receiver` with a key pair whose converted secret differs
returns `.ok none` — the null result, not a thrown error and not a wrong
plaintext; and (2) `decryptMessage` of a constructed key pair never throws
on any input buffer, truncated or corrupted included. -/
theorem decrypt_failure_soft (S : SignPrims) (B : BoxPrims)
    (hAuth : BoxAuthMismatch S B) (hLen : BoxEphKeyLen B)
    (rsec dsec : List Char) (receiver decryptor : KeyPairEd25519)
    (skR skD : List Nat)
    (hrd : base_decode rsec = some skR)
    (hr : KeyPairEd25519.create S rsec = .ok receiver)
    (hdd : base_decode dsec = some skD)
    (hd : KeyPairEd25519.create S dsec = .ok decryptor)
    (hne : B.convertSecretKey skD ≠ B.convertSecretKey skR)
    (sender : KeyPairEd25519) (m : List Nat) (seed : Nat)
    (nonce : List Nat) (hn : nonce.length = 24) :
    KeyPairEd25519.decryptMessage B decryptor
      (KeyPairEd25519.encryptMessage B sender m
        (KeyPairEd25519.getPublicKey receiver) seed nonce) = .ok none ∧
    ∀ fullCipher : List Nat, ∃ r,
      KeyPairEd25519.decryptMessage B decryptor fullCipher = .ok r := by
  obtain ⟨skR2, skpR, hdR, hkR, hkpR⟩ := create_elim hr
  obtain ⟨skD2, skpD, hdD, hkD, hkpD⟩ := create_elim hd
  rw [hrd] at hdR
  injection hdR with hdR
  subst hdR
  rw [hdd] at hdD
  injection hdD with hdD
  subst hdD
  subst hkpR
  subst hkpD
  constructor
  · rw [encryptMessage_eq]
    rw [decryptMessage_eq B _ hdd]
    simp only [KeyPairEd25519.getPublicKey]
    rw [uslice_first nonce _ (hLen seed), uslice_mid _ (hLen seed) hn,
      uslice_last _ (hLen seed) hn]
    exact congrArg Except.ok (hAuth m nonce seed skR skD skpR hkR hne)
  · intro fullCipher
    exact ⟨_, decryptMessage_eq B _ hdd fullCipher⟩

set_option maxRecDepth 100000 in
/-- Witness for C2 at the toy primitives: an envelope for `toyKpA` decrypted
with `toyKpB` yields the null result, and `toyKpB` never throws, shown on a
truncated two-byte buffer. -/
theorem decrypt_failure_soft_witness :
    KeyPairEd25519.decryptMessage toyBox toyKpB
      (KeyPairEd25519.encryptMessage toyBox toyKpA [1, 2, 3]
        (KeyPairEd25519.getPublicKey toyKpA) 7 (List.replicate 24 5)) = .ok none ∧
    ∃ r, KeyPairEd25519.decryptMessage toyBox toyKpB [9, 9] = .ok r :=
  ⟨(decrypt_failure_soft toySign toyBox toyBox_mismatch toyBox_len
      toySecretA toySecretB toyKpA toyKpB (List.replicate 64 2) (List.replicate 64 3)
      (by decide) (by decide) (by decide) (by decide) (by decide)
      toyKpA [1, 2, 3] 7 (List.replicate 24 5) (by decide)).1,
   (decrypt_failure_soft toySign toyBox toyBox_mismatch toyBox_len
      toySecretA toySecretB toyKpA toyKpB (List.replicate 64 2) (List.replicate 64 3)
      (by decide) (by decide) (by decide) (by decide) (by decide)
      toyKpA [1, 2, 3] 7 (List.replicate 24 5) (by decide)).2 [9, 9]⟩

/-- C3: for every key pair constructed from a valid encoded secret
(randomly generated ones go through the same constructor via `fromRandom`)
and every message, signing succeeds and the produced detached signature
verifies under the key pair, for any signature primitive satisfying its
correctness contract. -/
theorem sign_verify_roundtrip (S : SignPrims) (hv : SignVerifies S)
    (s : List Char) (kp : KeyPairEd25519)
    (hc : KeyPairEd25519.create S s = .ok kp) (m : List Nat) :
    ∃ sig, KeyPairEd25519.sign S kp m = .ok sig ∧
      KeyPairEd25519.verify S kp m sig.signature = true := by
  obtain ⟨skB, skp, hd, hk, hkp⟩ := create_elim hc
  subst hkp
  refine ⟨⟨S.detached m skB, ⟨KeyType.ED25519, skp.publicKey⟩⟩, ?_, ?_⟩
  · unfold KeyPairEd25519.sign
    rw [hd]
  · unfold KeyPairEd25519.verify PublicKey.verify
    exact hv m skB skp hk

set_option maxRecDepth 100000 in
/-- Witness for C3 at the toy primitives on a concrete key pair and
message. -/
theorem sign_verify_roundtrip_witness :
    ∃ sig, KeyPairEd25519.sign toySign toyKpA [4, 7] = .ok sig ∧
      KeyPairEd25519.verify toySign toyKpA [4, 7] sig.signature = true :=
  sign_verify_roundtrip toySign toySign_verifies toySecretA toyKpA (by decide) [4, 7]

set_option maxRecDepth 1000000 in
set_option maxHeartbeats 4000000 in
/-- C4: signing is deterministic — the embedded `sign` is a pure function,
and any two key pairs constructed from the same secret produce the same
signature — and on the named secret key of spec section 8 the constructed
key pair has public key `ed25519:AYWv9RAN1hpSQA4p1DLhCNnpnNXwxhfH9qeHN8B4nJ59`
and signing sha256("message") yields the named base-58 signature, computed
through the full SHA-512/Ed25519 model of the tweetnacl primitive. -/
theorem sign_deterministic_vector :
    KeyPairEd25519.create tweetnaclSign c4secret = .ok c4kp ∧
    PublicKey.toString (KeyPairEd25519.getPublicKey c4kp) =
      "ed25519:AYWv9RAN1hpSQA4p1DLhCNnpnNXwxhfH9qeHN8B4nJ59".toList ∧
    (KeyPairEd25519.sign tweetnaclSign c4kp c4msg).map
        (fun sg => base_encode sg.signature) =
      .ok "26gFr4xth7W9K7HPWAxq3BLsua8oTy378mC1MYFiEXHBBpeBjP8WmJEJo8XTBowetvqbRshcQEtBUdwQcAqDyP8T".toList ∧
    (∀ kp2 : KeyPairEd25519, KeyPairEd25519.create tweetnaclSign c4secret = .ok kp2 →
      KeyPairEd25519.sign tweetnaclSign kp2 c4msg =
        KeyPairEd25519.sign tweetnaclSign c4kp c4msg) := by
  refine ⟨by decide, by decide, by decide, ?_⟩
  intro kp2 h2
  have h1 : KeyPairEd25519.create tweetnaclSign c4secret = .ok c4kp := by decide
  rw [h1] at h2
  injection h2 with h2
  rw [h2]

set_option maxRecDepth 100000 in
/-- The doubling table is sound: it starts at the base point, has 256
entries, and each entry is (projectively) the double of the previous one. -/
theorem edBTable_sound :
    edBTable.head? = some edB ∧ edBTable.length = 256 ∧
      edBTableOkAux edBTable = true := by decide

set_option maxRecDepth 100000 in
/-- The balanced table-based base-point multiplication agrees with plain
binary scalar multiplication on sample scalars (compared compressed). -/
theorem scalarBaseMul_agrees :
    packPoint (scalarBaseMul 1) = packPoint (pMulAux 256 1 edB) ∧
    packPoint (scalarBaseMul 77) = packPoint (pMulAux 256 77 edB) ∧
    packPoint (scalarBaseMul 123456789) = packPoint (pMulAux 256 123456789 edB) := by decide

/-- Witness for C4: the determinism clause applied at the constructed key
pair itself, its hypothesis discharged by the first conjunct. -/
theorem sign_deterministic_vector_witness :
    KeyPairEd25519.sign tweetnaclSign c4kp c4msg =
      KeyPairEd25519.sign tweetnaclSign c4kp c4msg :=
  sign_deterministic_vector.2.2.2 c4kp sign_deterministic_vector.1

theorem fromString_canonical {S : SignPrims} {sec : List Char} {kp : KeyPairEd25519}
    (hc : KeyPairEd25519.create S sec = .ok kp) :
    KeyPair.fromString S ("ed25519:".toList ++ sec) = .ok kp := by
  obtain ⟨skB, skp, hd, hk, hkp⟩ := create_elim hc
  have hnc : ':' ∉ sec := base_decode_no_colon hd
  have hsplit : splitColon ("ed25519:".toList ++ sec) = ["ed25519".toList, sec] := by
    have he : ("ed25519:".toList ++ sec) = "ed25519".toList ++ ':' :: sec := rfl
    rw [he, splitColon_append (by decide) sec, splitColon_of_not_mem hnc]
  unfold KeyPair.fromString
  rw [hsplit]
  show (if ("ed25519".toList.map Char.toUpper = "ED25519".toList)
      then KeyPairEd25519.create S sec else .error .unknownCurve) = .ok kp
  rw [if_pos (by decide)]
  exact hc

/-- C5: string round trip. For every key pair `kp` constructed from a valid
encoded secret, `KeyPair.fromString kp.toString` succeeds with the same
`secretKey`; and for every canonical string `ed25519:<sec>` whose secret
constructs, `fromString` then `toString` reproduces the string exactly. -/
theorem keypair_string_roundtrip (S : SignPrims) :
    (∀ s kp, KeyPairEd25519.create S s = .ok kp →
      ∃ kp2, KeyPair.fromString S (KeyPairEd25519.toString kp) = .ok kp2 ∧
        kp2.secretKey = kp.secretKey) ∧
    (∀ sec kp, KeyPairEd25519.create S sec = .ok kp →
      ∃ kp2, KeyPair.fromString S ("ed25519:".toList ++ sec) = .ok kp2 ∧
        KeyPairEd25519.toString kp2 = "ed25519:".toList ++ sec) := by
  constructor
  · intro s kp hc
    obtain ⟨skB, skp, hd, hk, hkp⟩ := create_elim hc
    refine ⟨kp, ?_, rfl⟩
    have hsec : kp.secretKey = s := by rw [hkp]
    have ht : KeyPairEd25519.toString kp = "ed25519:".toList ++ s := by
      unfold KeyPairEd25519.toString
      rw [hsec]
    rw [ht]
    exact fromString_canonical hc
  · intro sec kp hc
    refine ⟨kp, fromString_canonical hc, ?_⟩
    obtain ⟨skB, skp, hd, hk, hkp⟩ := create_elim hc
    unfold KeyPairEd25519.toString
    rw [hkp]

set_option maxRecDepth 100000 in
/-- Witness for C5 at the toy primitives on a concrete key pair. -/
theorem keypair_string_roundtrip_witness :
    (∃ kp2, KeyPair.fromString toySign (KeyPairEd25519.toString toyKpA) = .ok kp2 ∧
      kp2.secretKey = toyKpA.secretKey) ∧
    (∃ kp2, KeyPair.fromString toySign ("ed25519:".toList ++ toySecretA) = .ok kp2 ∧
      KeyPairEd25519.toString kp2 = "ed25519:".toList ++ toySecretA) :=
  ⟨(keypair_string_roundtrip toySign).1 toySecretA toyKpA (by decide),
   (keypair_string_roundtrip toySign).2 toySecretA toyKpA (by decide)⟩

theorem split_two_segments {a : List Char} (b : List Char)
    (h0a : a.count ':' = 0) (h0b : b.count ':' = 0) :
    splitColon (a ++ ':' :: b) = [a, b] := by
  rw [splitColon_append (List.count_eq_zero.mp h0a) b,
    splitColon_of_not_mem (List.count_eq_zero.mp h0b)]

theorem pk_fromString_legacy (s : List Char) (bs : List Nat)
    (h0 : s.count ':' = 0) (hd : base_decode s = some bs) :
    PublicKey.fromString s = .ok ⟨KeyType.ED25519, bs⟩ := by
  unfold PublicKey.fromString
  rw [splitColon_of_not_mem (List.count_eq_zero.mp h0)]
  show (match base_decode s with
    | some bs => Except.ok (⟨KeyType.ED25519, bs⟩ : PublicKey)
    | none => Except.error KpError.invalidEncoding) = Except.ok ⟨KeyType.ED25519, bs⟩
  rw [hd]

theorem pk_fromString_prefixed (a b : List Char) (bs : List Nat)
    (h0a : a.count ':' = 0) (h0b : b.count ':' = 0)
    (hcurve : a.map Char.toLower = "ed25519".toList)
    (hd : base_decode b = some bs) :
    PublicKey.fromString (a ++ ':' :: b) = .ok ⟨KeyType.ED25519, bs⟩ := by
  unfold PublicKey.fromString
  rw [split_two_segments b h0a h0b]
  show (match str_to_key_type a with
    | .ok t =>
      (match base_decode b with
        | some bs => Except.ok (⟨t, bs⟩ : PublicKey)
        | none => Except.error KpError.invalidEncoding)
    | .error e => Except.error e) = Except.ok ⟨KeyType.ED25519, bs⟩
  unfold str_to_key_type
  rw [if_pos hcurve, hd]

theorem pk_fromString_multicolon (s : List Char) (h2 : 2 ≤ s.count ':') :
    PublicKey.fromString s = .error .invalidKeyFormat := by
  have hlen := splitColon_length s
  rcases hsp : splitColon s with _ | ⟨p0, _ | ⟨p1, _ | ⟨p2, rest⟩⟩⟩
  · rw [hsp] at hlen; simp only [List.length_nil, List.length_cons] at hlen; omega
  · rw [hsp] at hlen; simp only [List.length_nil, List.length_cons] at hlen; omega
  · rw [hsp] at hlen; simp only [List.length_nil, List.length_cons] at hlen; omega
  · unfold PublicKey.fromString
    rw [hsp]

theorem pk_fromString_unknown_curve (a b : List Char)
    (h0a : a.count ':' = 0) (h0b : b.count ':' = 0)
    (hne : a.map Char.toLower ≠ "ed25519".toList) :
    PublicKey.fromString (a ++ ':' :: b) = .error .unknownKeyType := by
  unfold PublicKey.fromString
  rw [split_two_segments b h0a h0b]
  show (match str_to_key_type a with
    | .ok t =>
      (match base_decode b with
        | some bs => Except.ok (⟨t, bs⟩ : PublicKey)
        | none => Except.error KpError.invalidEncoding)
    | .error e => Except.error e) = Except.error KpError.unknownKeyType
  unfold str_to_key_type
  rw [if_neg hne]

theorem kp_fromString_legacy (S : SignPrims) (s : List Char) (h0 : s.count ':' = 0) :
    KeyPair.fromString S s = KeyPairEd25519.create S s := by
  unfold KeyPair.fromString
  rw [splitColon_of_not_mem (List.count_eq_zero.mp h0)]

theorem kp_fromString_prefixed (S : SignPrims) (a b : List Char)
    (h0a : a.count ':' = 0) (h0b : b.count ':' = 0)
    (hcurve : a.map Char.toUpper = "ED25519".toList) :
    KeyPair.fromString S (a ++ ':' :: b) = KeyPairEd25519.create S b := by
  unfold KeyPair.fromString
  rw [split_two_segments b h0a h0b]
  show (if a.map Char.toUpper = "ED25519".toList
    then KeyPairEd25519.create S b else .error .unknownCurve) = KeyPairEd25519.create S b
  rw [if_pos hcurve]

theorem kp_fromString_multicolon (S : SignPrims) (s : List Char) (h2 : 2 ≤ s.count ':') :
    KeyPair.fromString S s = .error .invalidKeyFormat := by
  have hlen := splitColon_length s
  rcases hsp : splitColon s with _ | ⟨p0, _ | ⟨p1, _ | ⟨p2, rest⟩⟩⟩
  · rw [hsp] at hlen; simp only [List.length_nil, List.length_cons] at hlen; omega
  · rw [hsp] at hlen; simp only [List.length_nil, List.length_cons] at hlen; omega
  · rw [hsp] at hlen; simp only [List.length_nil, List.length_cons] at hlen; omega
  · unfold KeyPair.fromString
    rw [hsp]

theorem kp_fromString_unknown_curve (S : SignPrims) (a b : List Char)
    (h0a : a.count ':' = 0) (h0b : b.count ':' = 0)
    (hne : a.map Char.toUpper ≠ "ED25519".toList) :
    KeyPair.fromString S (a ++ ':' :: b) = .error .unknownCurve := by
  unfold KeyPair.fromString
  rw [split_two_segments b h0a h0b]
  show (if a.map Char.toUpper = "ED25519".toList
    then KeyPairEd25519.create S b else .error .unknownCurve) = Except.error KpError.unknownCurve
  rw [if_neg hne]

/-- C6: colon behavior of both parsers. Zero colons parses as a legacy bare
ED25519 key; exactly one colon parses as `<curve>:<encoded>` with the curve
tag matched case-insensitively; two or more colons is the invalid-format
error; one colon with an unrecognized tag is the unknown-key-type /
unknown-curve error. -/
theorem fromString_colon_behavior :
    (∀ s bs, s.count ':' = 0 → base_decode s = some bs →
      PublicKey.fromString s = .ok ⟨KeyType.ED25519, bs⟩) ∧
    (∀ a b bs, a.count ':' = 0 → b.count ':' = 0 →
      a.map Char.toLower = "ed25519".toList → base_decode b = some bs →
      PublicKey.fromString (a ++ ':' :: b) = .ok ⟨KeyType.ED25519, bs⟩) ∧
    (∀ s, 2 ≤ s.count ':' → PublicKey.fromString s = .error .invalidKeyFormat) ∧
    (∀ a b, a.count ':' = 0 → b.count ':' = 0 →
      a.map Char.toLower ≠ "ed25519".toList →
      PublicKey.fromString (a ++ ':' :: b) = .error .unknownKeyType) ∧
    (∀ S s, s.count ':' = 0 → KeyPair.fromString S s = KeyPairEd25519.create S s) ∧
    (∀ (S : SignPrims) a b, a.count ':' = 0 → b.count ':' = 0 →
      a.map Char.toUpper = "ED25519".toList →
      KeyPair.fromString S (a ++ ':' :: b) = KeyPairEd25519.create S b) ∧
    (∀ S s, 2 ≤ s.count ':' → KeyPair.fromString S s = .error .invalidKeyFormat) ∧
    (∀ (S : SignPrims) a b, a.count ':' = 0 → b.count ':' = 0 →
      a.map Char.toUpper ≠ "ED25519".toList →
      KeyPair.fromString S (a ++ ':' :: b) = .error .unknownCurve) :=
  ⟨pk_fromString_legacy, pk_fromString_prefixed, pk_fromString_multicolon,
   pk_fromString_unknown_curve, kp_fromString_legacy, kp_fromString_prefixed,
   kp_fromString_multicolon, kp_fromString_unknown_curve⟩

set_option maxRecDepth 100000 in
/-- Witness for C6 on concrete inputs: `"a:b:c"` fails with the format error
in both parsers, an unknown curve tag fails with the unknown-curve error,
legacy bare input parses as ED25519, and an uppercase tag is accepted. -/
theorem fromString_colon_behavior_witness :
    PublicKey.fromString "a:b:c".toList = .error .invalidKeyFormat ∧
    KeyPair.fromString toySign "a:b:c".toList = .error .invalidKeyFormat ∧
    PublicKey.fromString ("secp".toList ++ ':' :: "2".toList) = .error .unknownKeyType ∧
    KeyPair.fromString toySign ("secp".toList ++ ':' :: "2".toList) = .error .unknownCurve ∧
    PublicKey.fromString "2".toList = .ok ⟨KeyType.ED25519, [1]⟩ ∧
    PublicKey.fromString ("ED25519".toList ++ ':' :: "2".toList) =
      .ok ⟨KeyType.ED25519, [1]⟩ ∧
    KeyPair.fromString toySign "2".toList = KeyPairEd25519.create toySign "2".toList ∧
    KeyPair.fromString toySign ("Ed25519".toList ++ ':' :: toySecretA) =
      KeyPairEd25519.create toySign toySecretA :=
  ⟨fromString_colon_behavior.2.2.1 "a:b:c".toList (by decide),
   fromString_colon_behavior.2.2.2.2.2.2.1 toySign "a:b:c".toList (by decide),
   fromString_colon_behavior.2.2.2.1 "secp".toList "2".toList
     (by decide) (by decide) (by decide),
   fromString_colon_behavior.2.2.2.2.2.2.2 toySign "secp".toList "2".toList
     (by decide) (by decide) (by decide),
   fromString_colon_behavior.1 "2".toList [1] (by decide) (by decide),
   fromString_colon_behavior.2.1 "ED25519".toList "2".toList [1]
     (by decide) (by decide) (by decide) (by decide),
   fromString_colon_behavior.2.2.2.2.1 toySign "2".toList (by decide),
   fromString_colon_behavior.2.2.2.2.2.1 toySign "Ed25519".toList toySecretA
     (by decide) (by decide) (by decide)⟩

/-- C7: `toString` is canonicalizing. Every `PublicKey` prints as
`ed25519:<encoded data>` and every `KeyPairEd25519` prints as
`ed25519:<secret>`; values parsed from a legacy unprefixed string still
print in prefixed form, which is never equal to the legacy input. -/
theorem toString_canonical :
    (∀ pk : PublicKey,
      PublicKey.toString pk = "ed25519:".toList ++ base_encode pk.data) ∧
    (∀ s bs pk, s.count ':' = 0 → base_decode s = some bs →
      PublicKey.fromString s = .ok pk →
      PublicKey.toString pk = "ed25519:".toList ++ base_encode bs ∧
        PublicKey.toString pk ≠ s) ∧
    (∀ kp : KeyPairEd25519,
      KeyPairEd25519.toString kp = "ed25519:".toList ++ kp.secretKey) ∧
    (∀ (S : SignPrims) s kp, s.count ':' = 0 → KeyPair.fromString S s = .ok kp →
      KeyPairEd25519.toString kp = "ed25519:".toList ++ s ∧
        KeyPairEd25519.toString kp ≠ s) := by
  have h1 : ∀ pk : PublicKey,
      PublicKey.toString pk = "ed25519:".toList ++ base_encode pk.data := by
    intro pk
    cases pk with
    | mk t d => cases t; rfl
  refine ⟨h1, ?_, fun kp => rfl, ?_⟩
  · intro s bs pk h0 hd hp
    rw [pk_fromString_legacy s bs h0 hd] at hp
    injection hp with hp
    subst hp
    refine ⟨h1 _, ?_⟩
    intro heq
    have hmem : ':' ∈ PublicKey.toString ⟨KeyType.ED25519, bs⟩ := by
      rw [h1]
      exact List.mem_append.mpr (Or.inl (by decide))
    exact (List.count_eq_zero.mp h0) (heq ▸ hmem)
  · intro S s kp h0 hf
    rw [kp_fromString_legacy S s h0] at hf
    obtain ⟨skB, skp, hd, hk, hkp⟩ := create_elim hf
    have hsec : kp.secretKey = s := by rw [hkp]
    constructor
    · show "ed25519:".toList ++ kp.secretKey = "ed25519:".toList ++ s
      rw [hsec]
    · intro heq
      have hmem : ':' ∈ KeyPairEd25519.toString kp := by
        unfold KeyPairEd25519.toString
        exact List.mem_append.mpr (Or.inl (by decide))
      exact (List.count_eq_zero.mp h0) (heq ▸ hmem)

set_option maxRecDepth 100000 in
/-- Witness for C7 on a concrete legacy-parsed public key and a concrete
legacy-parsed key pair. -/
theorem toString_canonical_witness :
    (PublicKey.toString ⟨KeyType.ED25519, [1]⟩ = "ed25519:".toList ++ base_encode [1] ∧
      PublicKey.toString ⟨KeyType.ED25519, [1]⟩ ≠ "2".toList) ∧
    (KeyPairEd25519.toString toyKpA = "ed25519:".toList ++ toySecretA ∧
      KeyPairEd25519.toString toyKpA ≠ toySecretA) :=
  ⟨toString_canonical.2.1 "2".toList [1] ⟨KeyType.ED25519, [1]⟩
     (by decide) (by decide) (by decide),
   toString_canonical.2.2.2 toySign toySecretA toyKpA (by decide) (by decide)⟩

/-- C8: the envelope wire layout. `encryptMessage` assembles exactly
`ephemeralPublicKey (32 bytes) || nonce (24 bytes) || cipher`, so bytes
0..32 of its output are the ephemeral public key, bytes 32..56 the nonce
and bytes 56..end the box ciphertext; and `decryptMessage` slices any input
at exactly the offsets 0..32, 32..56, 56..end before opening the box. -/
theorem envelope_layout (B : BoxPrims) (hLen : BoxEphKeyLen B)
    (kp : KeyPairEd25519) (m : List Nat) (rpk : PublicKey)
    (seed : Nat) (nonce : List Nat) (hn : nonce.length = 24) :
    KeyPairEd25519.encryptMessage B kp m rpk seed nonce =
      (B.keyPair seed).publicKey ++ nonce ++
        B.box m nonce (B.convertPublicKey rpk.data) (B.keyPair seed).secretKey ∧
    uslice (KeyPairEd25519.encryptMessage B kp m rpk seed nonce) 0 32 =
      (B.keyPair seed).publicKey ∧
    uslice (KeyPairEd25519.encryptMessage B kp m rpk seed nonce) 32 56 = nonce ∧
    usliceFrom (KeyPairEd25519.encryptMessage B kp m rpk seed nonce) 56 =
      B.box m nonce (B.convertPublicKey rpk.data) (B.keyPair seed).secretKey ∧
    (∀ f skB, base_decode kp.secretKey = some skB →
      KeyPairEd25519.decryptMessage B kp f =
        .ok (B.boxOpen (usliceFrom f 56) (uslice f 32 56) (uslice f 0 32)
          (B.convertSecretKey skB))) := by
  have he := encryptMessage_eq B kp m rpk seed nonce
  refine ⟨he, ?_, ?_, ?_, ?_⟩
  · rw [he]; exact uslice_first _ _ (hLen seed)
  · rw [he]; exact uslice_mid _ (hLen seed) hn
  · rw [he]; exact uslice_last _ (hLen seed) hn
  · intro f skB hd
    exact decryptMessage_eq B kp hd f

set_option maxRecDepth 100000 in
/-- Witness for C8 at the toy primitives with concrete inputs. -/
theorem envelope_layout_witness :
    uslice (KeyPairEd25519.encryptMessage toyBox toyKpA [1, 2]
        (KeyPairEd25519.getPublicKey toyKpA) 7 (List.replicate 24 5)) 0 32 =
      (toyBox.keyPair 7).publicKey ∧
    uslice (KeyPairEd25519.encryptMessage toyBox toyKpA [1, 2]
        (KeyPairEd25519.getPublicKey toyKpA) 7 (List.replicate 24 5)) 32 56 =
      List.replicate 24 5 ∧
    KeyPairEd25519.decryptMessage toyBox toyKpA [3, 4] =
      .ok (toyBox.boxOpen (usliceFrom [3, 4] 56) (uslice [3, 4] 32 56)
        (uslice [3, 4] 0 32) (toyBox.convertSecretKey (List.replicate 64 2))) :=
  ⟨(envelope_layout toyBox toyBox_len toyKpA [1, 2] (KeyPairEd25519.getPublicKey toyKpA)
      7 (List.replicate 24 5) (by decide)).2.1,
   (envelope_layout toyBox toyBox_len toyKpA [1, 2] (KeyPairEd25519.getPublicKey toyKpA)
      7 (List.replicate 24 5) (by decide)).2.2.1,
   (envelope_layout toyBox toyBox_len toyKpA [1, 2] (KeyPairEd25519.getPublicKey toyKpA)
      7 (List.replicate 24 5) (by decide)).2.2.2.2 [3, 4] (List.replicate 64 2) (by decide)⟩

/-- C9: construction copies externally supplied byte buffers into owned
storage, in the `BufStore` model of mutable JS buffers (the `Assignable`
construction path is modelled from the spec, see `PublicKey.constructRef`).
Mutating any buffer the caller already held before construction — the input
buffer included — never changes the constructed entity's stored key bytes:
they stay the bytes the caller's buffer held at construction time. -/
theorem construction_copies_buffers :
    (∀ (st : BufStore) (t : KeyType) (buf : Nat), buf < st.next →
      ∀ (addr : Nat) (bs : List Nat), addr < st.next →
        PublicKeyRef.readData ((PublicKey.constructRef st t buf).1.write addr bs)
            (PublicKey.constructRef st t buf).2 = st.data buf ∧
        PublicKeyRef.readData (PublicKey.constructRef st t buf).1
            (PublicKey.constructRef st t buf).2 = st.data buf) ∧
    (∀ (S : SignPrims) (st : BufStore) (sec : List Char)
        (out : BufStore × PublicKeyRef × List Char),
      KeyPairEd25519.constructRef S st sec = .ok out →
      ∀ (addr : Nat) (bs : List Nat), addr < st.next →
        PublicKeyRef.readData (out.1.write addr bs) out.2.1 =
          PublicKeyRef.readData out.1 out.2.1) := by
  constructor
  · intro st t buf hbuf addr bs haddr
    have hne : st.next ≠ addr := by omega
    constructor
    · simp only [PublicKey.constructRef, BufStore.write, PublicKeyRef.readData]
      rw [if_neg hne]
      simp
    · simp only [PublicKey.constructRef, PublicKeyRef.readData]
      simp
  · intro S st sec out h addr bs haddr
    unfold KeyPairEd25519.constructRef at h
    split at h
    · simp at h
    · split at h
      · simp at h
      · injection h with h'
        subst h'
        have hne : st.next ≠ addr := by omega
        simp only [BufStore.write, PublicKeyRef.readData]
        rw [if_neg hne]

/-- Witness for C9 at a concrete one-buffer store: after constructing a
public key from the caller's buffer (holding `[9]`), overwriting that
buffer with `[7]` leaves the stored key bytes `[9]`. -/
theorem construction_copies_buffers_witness :
    PublicKeyRef.readData
        ((PublicKey.constructRef ⟨fun _ => [9], 1⟩ KeyType.ED25519 0).1.write 0 [7])
        (PublicKey.constructRef ⟨fun _ => [9], 1⟩ KeyType.ED25519 0).2 = [9] ∧
    PublicKeyRef.readData (PublicKey.constructRef ⟨fun _ => [9], 1⟩ KeyType.ED25519 0).1
        (PublicKey.constructRef ⟨fun _ => [9], 1⟩ KeyType.ED25519 0).2 = [9] :=
  construction_copies_buffers.1 ⟨fun _ => [9], 1⟩ KeyType.ED25519 0
    (by decide) 0 [7] (by decide)

/-- C10: `PublicKey.fromString` performs no length validation on decoded key
bytes: for every input with zero or one colon whose byte segment decodes,
the result is `.ok` with `data` exactly the decoded bytes, whatever their
length (nothing constrains it to the 32 bytes expected for ED25519). -/
theorem fromString_no_length_validation :
    (∀ s bs, s.count ':' = 0 → base_decode s = some bs →
      PublicKey.fromString s = .ok ⟨KeyType.ED25519, bs⟩) ∧
    (∀ a b bs, a.count ':' = 0 → b.count ':' = 0 →
      a.map Char.toLower = "ed25519".toList → base_decode b = some bs →
      PublicKey.fromString (a ++ ':' :: b) = .ok ⟨KeyType.ED25519, bs⟩) :=
  ⟨pk_fromString_legacy, pk_fromString_prefixed⟩

/-- Witness for C10: one-byte decoded keys (length 1, not 32) are accepted
on both the legacy and the prefixed path. -/
theorem fromString_no_length_validation_witness :
    (PublicKey.fromString "3".toList = .ok ⟨KeyType.ED25519, [2]⟩ ∧
      ([2] : List Nat).length ≠ 32) ∧
    (PublicKey.fromString ("ed25519".toList ++ ':' :: "z".toList) =
        .ok ⟨KeyType.ED25519, [57]⟩ ∧
      ([57] : List Nat).length ≠ 32) :=
  ⟨⟨fromString_no_length_validation.1 "3".toList [2] (by decide) (by decide),
    by decide⟩,
   ⟨fromString_no_length_validation.2 "ed25519".toList "z".toList [57]
      (by decide) (by decide) (by decide) (by decide),
    by decide⟩⟩
